import Mathlib

/-!
Verification of the nornir-cli upgrade-workflow core against its
natural-language specification.  The Python sources under `src/` are
shallowly embedded below: Python values become the inductive `Value`,
`host.data` becomes an association list, fallible code returns `Except`,
and device interaction (netmiko/napalm calls) is supplied through explicit
environment records so that every embedded function stays pure and
executable.
-/

namespace NornirCli

/-- A Python runtime error class, as far as the embedded code can raise one. -/
inductive PyError where
  | attributeError
  | valueError
  | typeError
  | keyError
  | nameError
  | transportError
  deriving DecidableEq, Repr

/-- A Python value as it appears in `host.data` and in netmiko results:
strings, ints, bools, lists, dicts (insertion-ordered association lists),
`None`, and `set` objects (sets of strings are the only sets the embedded
code builds, in `get_images_to_delete`). -/
inductive Value where
  | vStr (s : String)
  | vInt (n : Int)
  | vBool (b : Bool)
  | vList (l : List Value)
  | vDict (d : List (String × Value))
  | vSet (s : List String)
  | vNone

/-- `host.data`: a string-keyed mapping, modelled as an association list in
which the most recent write is the first matching entry. -/
abbrev HostData := List (String × Value)

/-- Look a key up in `host.data` (first match wins, mirroring dict update
by shadowing). -/
def dataLookup (h : HostData) (k : String) : Option Value :=
  match h with
  | [] => none
  | (k2, v) :: rest => if k2 = k then some v else dataLookup rest k

/-- `host.data[k] = v`. -/
def dataSet (h : HostData) (k : String) (v : Value) : HostData :=
  (k, v) :: h

/-- Python truthiness of a value (`if value:`). -/
def pyTruthy : Value → Bool
  | .vStr s => s ≠ ""
  | .vInt n => n ≠ 0
  | .vBool b => b
  | .vList l => !l.isEmpty
  | .vDict d => !d.isEmpty
  | .vSet s => !s.isEmpty
  | .vNone => false

/-- Truthiness of `host.data.get(k)` (missing keys give `None`, falsy). -/
def optTruthy : Option Value → Bool
  | none => false
  | some v => pyTruthy v

/-- Python `value == "literal"` for a string literal right-hand side. -/
def pyEqStr (v : Value) (s : String) : Bool :=
  match v with
  | .vStr t => t = s
  | _ => false

/-- Python type tags used by the `DataField` schema (`t` argument). -/
inductive PyPrim where
  | tStr | tInt | tBool | tList | tDict | tFloat
  deriving DecidableEq, Repr

/-- `isinstance(value, t)`.  Python's `bool` is a subclass of `int`, so a
bool value passes an `int` check. -/
def isInst (v : Value) (t : PyPrim) : Bool :=
  match v, t with
  | .vStr _, .tStr => true
  | .vInt _, .tInt => true
  | .vBool _, .tBool => true
  | .vBool _, .tInt => true
  | .vList _, .tList => true
  | .vDict _, .tDict => true
  | _, _ => false

/-- The two validator functions of `utils/validators.py` that the field
registry installs (`is_not_empty_string`, `is_positive_integer`). -/
inductive PyValidator where
  | notEmptyString
  | positiveInteger
  deriving DecidableEq, Repr

/-- Python `str.strip` whitespace set. -/
def isPySpace (c : Char) : Bool :=
  c = ' ' || c = '\t' || c = '\n' || c = '\r' || c = '\x0b' || c = '\x0c'

/-- Python `str.strip()`. -/
def pyStrip (s : String) : String :=
  String.mk (((s.data.dropWhile isPySpace).reverse.dropWhile isPySpace).reverse)

/-- Run a registry validator, per `utils/validators.py`:
`is_not_empty_string(v) = isinstance(v, str) and bool(v.strip())`;
`is_positive_integer(v) = isinstance(v, int) and v > 0` (a Python `bool`
is an `int`, with `True == 1`). -/
def runValidator (va : PyValidator) (v : Value) : Bool :=
  match va, v with
  | .notEmptyString, .vStr s => pyStrip s ≠ ""
  | .notEmptyString, _ => false
  | .positiveInteger, .vInt n => n > 0
  | .positiveInteger, .vBool b => b
  | .positiveInteger, _ => false

/-- The declared shape of a `DataField`: either a primitive type with a
validator list, or a `NestedDataFields` class with named sub-fields. -/
inductive DSchema where
  | prim (t : PyPrim) (validators : List PyValidator)
  | nested (fields : List (String × DSchema))
  deriving Repr

/-- A `DataField` of `utils/data_fields.py`: a name plus its schema. -/
structure DField where
  name : String
  schema : DSchema
  deriving Repr

mutual
/-- Nesting depth of a schema, used as recursion fuel for `validate`. -/
def schemaDepth : DSchema → Nat
  | .prim _ _ => 1
  | .nested fs => fieldsDepth fs + 1

def fieldsDepth : List (String × DSchema) → Nat
  | [] => 0
  | (_, sch) :: rest => schemaDepth sch + fieldsDepth rest
end

/-- `DataField.validate` with explicit recursion fuel: a nested class
dispatches to `validate_dict` — every dict entry whose key is a declared
field must validate recursively, unknown keys are ignored — and a
primitive checks `isinstance` and then every validator.  One unit of fuel
is spent per nesting level, so `schemaDepth` is always sufficient and the
out-of-fuel branch is unreachable. -/
def schemaValidateF : Nat → DSchema → Value → Bool
  | 0, _, _ => false
  | _ + 1, .prim t vas, v => isInst v t && vas.all (fun va => runValidator va v)
  | fuel + 1, .nested fields, v =>
    match v with
    | .vDict d =>
      fields.all (fun f =>
        d.all (fun kv => if kv.1 = f.1 then schemaValidateF fuel f.2 kv.2 else true))
    | _ => false

/-- `DataField.validate(value)` (on a bare schema). -/
def schemaValidate (sch : DSchema) (v : Value) : Bool :=
  schemaValidateF (schemaDepth sch) sch v

def DField.validate (f : DField) (v : Value) : Bool :=
  schemaValidate f.schema v

/-- `StackInfoFields` nested schema (is_stack, stack_members, stack_master,
target_in_flash). -/
def StackInfoFields.schema : DSchema :=
  .nested
    [ ("is_stack", .prim .tBool [])
    , ("stack_members", .prim .tList [])
    , ("stack_master", .prim .tStr [.notEmptyString])
    , ("target_in_flash", .prim .tBool []) ]

/-- `PlatformFields` nested schema. -/
def PlatformFields.schema : DSchema :=
  .nested
    [ ("id", .prim .tInt [.positiveInteger])
    , ("name", .prim .tStr [.notEmptyString])
    , ("slug", .prim .tStr [.notEmptyString])
    , ("display", .prim .tStr [.notEmptyString])
    , ("description", .prim .tStr [])
    , ("url", .prim .tStr [.notEmptyString]) ]

/-- `DataFields.PRIMARY_IMAGE`. -/
def DataFields.PRIMARY_IMAGE : DField :=
  ⟨"primary_image", .prim .tStr [.notEmptyString]⟩

/-- `DataFields.CURRENT_IMAGE`. -/
def DataFields.CURRENT_IMAGE : DField :=
  ⟨"current_image", .prim .tStr [.notEmptyString]⟩

/-- `DataFields.IOS_VERSION`. -/
def DataFields.IOS_VERSION : DField :=
  ⟨"ios_version", .prim .tStr [.notEmptyString]⟩

/-- `DataFields.STACK_INFO`. -/
def DataFields.STACK_INFO : DField :=
  ⟨"stack_info", StackInfoFields.schema⟩

/-- `DataFields.IS_AT_TARGET`. -/
def DataFields.IS_AT_TARGET : DField :=
  ⟨"is_at_target", .prim .tBool []⟩

/-- `DataFields.RELOAD_TIME`: declared as a positive integer. -/
def DataFields.RELOAD_TIME : DField :=
  ⟨"reload_time", .prim .tInt [.positiveInteger]⟩

/-- `DataFields.RELOAD_SET`. -/
def DataFields.RELOAD_SET : DField :=
  ⟨"reload_set", .prim .tBool []⟩

/-- `DataFields.PLATFORM`. -/
def DataFields.PLATFORM : DField :=
  ⟨"platform", PlatformFields.schema⟩

/-- `DataFields.IMAGES_TO_DELETE`: declared as a list. -/
def DataFields.IMAGES_TO_DELETE : DField :=
  ⟨"images_to_delete", .prim .tList []⟩

/-- `get_required_host_vars(host, required_vars)`.  Returns the success
flag (the list's first element in the source) and the appended values.
A missing or invalid field flips the flag to `False` and appends nothing,
so the value list only holds the present-and-valid fields, in order. -/
def getRequiredHostVars (h : HostData) (vars : List DField) : Bool × List Value :=
  match vars with
  | [] => (true, [])
  | f :: rest =>
    let (flag, vals) := getRequiredHostVars h rest
    match dataLookup h f.name with
    | none => (false, vals)
    | some v => if f.validate v then (flag, v :: vals) else (false, vals)

/-- Tuple unpacking `success, v1, ..., vn = get_required_host_vars(...)`:
succeeds exactly when the returned list has `n` values after the flag,
otherwise Python raises `ValueError`. -/
def unpackRequired (r : Bool × List Value) (n : Nat) : Except PyError (Bool × List Value) :=
  if r.2.length = n then .ok r else .error .valueError

/-- An element of the `required_vars` sequence as a caller may actually
write it: a `DataField` or (by mistake) a plain string. -/
inductive RawVar where
  | field (f : DField)
  | str (s : String)

/-- `get_required_host_vars` as invoked on a raw sequence: the loop reads
`var.name` on each element, which raises `AttributeError` on a `str`. -/
def getRequiredHostVarsRaw (h : HostData) (vars : List RawVar) :
    Except PyError (Bool × List Value) :=
  match vars with
  | [] => .ok (true, [])
  | .str _ :: _ => .error .attributeError
  | .field f :: rest =>
    match getRequiredHostVarsRaw h rest with
    | .error e => .error e
    | .ok (flag, vals) =>
      match dataLookup h f.name with
      | none => .ok (false, vals)
      | some v => .ok (if f.validate v then (flag, v :: vals) else (false, vals))

/-- The success flag is true exactly when every requested field is present
and valid. -/
theorem getRequiredHostVars_flag (h : HostData) (vars : List DField) :
    (getRequiredHostVars h vars).1 =
      vars.all (fun f => ((dataLookup h f.name).map f.validate).getD false) := by
  induction vars with
  | nil => rfl
  | cons f rest ih =>
    simp only [getRequiredHostVars, List.all_cons]
    cases hl : dataLookup h f.name with
    | none => simp [hl]
    | some v =>
      by_cases hv : f.validate v <;> simp [hl, hv, ih]

/-- The returned values are those of exactly the present-and-valid fields,
in request order. -/
theorem getRequiredHostVars_vals (h : HostData) (vars : List DField) :
    (getRequiredHostVars h vars).2 =
      vars.filterMap (fun f =>
        (dataLookup h f.name).bind (fun v => if f.validate v then some v else none)) := by
  induction vars with
  | nil => rfl
  | cons f rest ih =>
    simp only [getRequiredHostVars, List.filterMap_cons]
    cases hl : dataLookup h f.name with
    | none => simp [hl, ih]
    | some v =>
      by_cases hv : f.validate v <;> simp [hl, hv, ih]

/-- At most one value per requested field comes back. -/
theorem getRequiredHostVars_len_le (h : HostData) (vars : List DField) :
    (getRequiredHostVars h vars).2.length ≤ vars.length := by
  induction vars with
  | nil => simp [getRequiredHostVars]
  | cons f rest ih =>
    simp only [getRequiredHostVars, List.length_cons]
    cases hl : dataLookup h f.name with
    | none => exact Nat.le_succ_of_le ih
    | some v =>
      by_cases hv : f.validate v
      · simpa [hv] using Nat.succ_le_succ ih
      · simpa [hv] using Nat.le_succ_of_le ih

/-- When the flag is false, strictly fewer values than fields come back. -/
theorem getRequiredHostVars_short (h : HostData) (vars : List DField)
    (hflag : (getRequiredHostVars h vars).1 = false) :
    (getRequiredHostVars h vars).2.length < vars.length := by
  induction vars with
  | nil => simp [getRequiredHostVars] at hflag
  | cons f rest ih =>
    simp only [getRequiredHostVars, List.length_cons] at hflag ⊢
    cases hl : dataLookup h f.name with
    | none =>
      exact Nat.lt_succ_of_le (getRequiredHostVars_len_le h rest)
    | some v =>
      by_cases hv : f.validate v
      · simp only [hl, hv, if_pos] at hflag ⊢
        exact Nat.succ_lt_succ (ih hflag)
      · exact Nat.lt_succ_of_le (by simpa [hl, hv] using getRequiredHostVars_len_le h rest)

/-- If every value came back (one per field), the flag is true. -/
theorem getRequiredHostVars_full_flag (h : HostData) (vars : List DField)
    (hlen : (getRequiredHostVars h vars).2.length = vars.length) :
    (getRequiredHostVars h vars).1 = true := by
  by_contra hfl
  have := getRequiredHostVars_short h vars (by
    cases hb : (getRequiredHostVars h vars).1
    · rfl
    · exact absurd hb hfl)
  omega

/-- C3 counterexample: requesting the single field `PRIMARY_IMAGE` from a
host with empty data returns the success flag `False` followed by NO value
at all — not "one position per requested field" as the claim states (the
caller's two-name unpacking would raise `ValueError`). -/
theorem C3_get_required_host_vars_cex :
    (getRequiredHostVars [] [DataFields.PRIMARY_IMAGE]).1 = false ∧
    (getRequiredHostVars [] [DataFields.PRIMARY_IMAGE]).2.length = 0 := by
  decide

/-- C3 (amended): `get_required_host_vars` never raises — it is a total
function of the host data — and returns a success flag that is `False`
exactly when some requested field is absent from `host.data` or fails its
validator, followed by the values of only those requested fields that are
present and valid, in request order (missing or invalid fields contribute
no position). -/
theorem C3_get_required_host_vars_amended (h : HostData) (vars : List DField) :
    ((getRequiredHostVars h vars).1 = false ↔
      ∃ f ∈ vars, ((dataLookup h f.name).map f.validate).getD false = false) ∧
    (getRequiredHostVars h vars).2 =
      vars.filterMap (fun f =>
        (dataLookup h f.name).bind (fun v => if f.validate v then some v else none)) := by
  constructor
  · rw [getRequiredHostVars_flag]
    simp [List.all_eq_true]
  · exact getRequiredHostVars_vals h vars

/-! ## `utils/validators.py`: `validate_reload_date`

The source strips and lowercases the input, then matches it against the
anchored regex
`^([01]\d|2[0-3]):([0-5]\d)\s([0-2]\d|3[01])\s(jan|feb|...|dec)$`
and finally applies the staged day-bound checks.  Python string patterns
give `\d` and `\s` their Unicode meaning (`str.isspace` is the same
character set as `\s`, and `str.strip()` strips exactly that set), so the
whitespace class, the decimal-digit class, `strip` and `lower` are embedded
from the CPython character tables.  Every alternative of the regex is of
fixed width, so a match is a pattern match on a twelve-character list with
the character classes written as code-point ranges (48 = '0', 57 = '9'). -/

/-- ASCII lowercase of one character (Python `str.lower` on ASCII input). -/
def asciiLower (c : Char) : Char :=
  if 65 ≤ c.toNat ∧ c.toNat ≤ 90 then Char.ofNat (c.toNat + 32) else c

/-- Python whitespace (`str.isspace`, the regex class `\s` for `str`
patterns, and the default `str.strip` set are all this one character
set). -/
def isPyUSpace (c : Char) : Bool :=
  decide ((9 ≤ c.toNat ∧ c.toNat ≤ 13) ∨ (28 ≤ c.toNat ∧ c.toNat ≤ 32)
    ∨ c.toNat = 133 ∨ c.toNat = 160 ∨ c.toNat = 5760
    ∨ (8192 ≤ c.toNat ∧ c.toNat ≤ 8202) ∨ c.toNat = 8232 ∨ c.toNat = 8233
    ∨ c.toNat = 8239 ∨ c.toNat = 8287 ∨ c.toNat = 12288)

/-- The runs of Unicode decimal digits (category `Nd`, the regex class
`\d` for `str` patterns); each run is aligned so that the decimal value of
a character is its offset in the run modulo ten. -/
def ndRuns : List (Nat × Nat) :=

  [ (48, 57), (1632, 1641), (1776, 1785), (1984, 1993), (2406, 2415), (2534, 2543)
  , (2662, 2671), (2790, 2799), (2918, 2927), (3046, 3055), (3174, 3183), (3302, 3311)
  , (3430, 3439), (3558, 3567), (3664, 3673), (3792, 3801), (3872, 3881), (4160, 4169)
  , (4240, 4249), (6112, 6121), (6160, 6169), (6470, 6479), (6608, 6617), (6784, 6793)
  , (6800, 6809), (6992, 7001), (7088, 7097), (7232, 7241), (7248, 7257), (42528, 42537)
  , (43216, 43225), (43264, 43273), (43472, 43481), (43504, 43513), (43600, 43609), (44016, 44025)
  , (65296, 65305), (66720, 66729), (68912, 68921), (69734, 69743), (69872, 69881), (69942, 69951)
  , (70096, 70105), (70384, 70393), (70736, 70745), (70864, 70873), (71248, 71257), (71360, 71369)
  , (71472, 71481), (71904, 71913), (72016, 72025), (72784, 72793), (73040, 73049), (73120, 73129)
  , (92768, 92777), (92864, 92873), (93008, 93017), (120782, 120831), (123200, 123209), (123632, 123641)
  , (125264, 125273), (130032, 130041) ]

/-- Membership in the regex class `\d`. -/
def isPyDigit (c : Char) : Bool :=
  ndRuns.any (fun r => decide (r.1 ≤ c.toNat) && decide (c.toNat ≤ r.2))

/-- The decimal value of a digit character (what `int` assigns it). -/
def pyDigitVal (c : Char) : Nat :=
  match ndRuns.find? (fun r => decide (r.1 ≤ c.toNat) && decide (c.toNat ≤ r.2)) with
  | some r => (c.toNat - r.1) % 10
  | none => 0

/-- Part 1 of the `str.lower` one-to-one mappings outside ASCII. -/
def lowerTab1 : List (Nat × Nat) :=
  [ (192, 224), (193, 225), (194, 226), (195, 227), (196, 228), (197, 229)
  , (198, 230), (199, 231), (200, 232), (201, 233), (202, 234), (203, 235)
  , (204, 236), (205, 237), (206, 238), (207, 239), (208, 240), (209, 241)
  , (210, 242), (211, 243), (212, 244), (213, 245), (214, 246), (216, 248)
  , (217, 249), (218, 250), (219, 251), (220, 252), (221, 253), (222, 254)
  , (256, 257), (258, 259), (260, 261), (262, 263), (264, 265), (266, 267)
  , (268, 269), (270, 271), (272, 273), (274, 275), (276, 277), (278, 279)
  , (280, 281), (282, 283), (284, 285), (286, 287), (288, 289), (290, 291)
  , (292, 293), (294, 295), (296, 297), (298, 299), (300, 301), (302, 303)
  , (306, 307), (308, 309), (310, 311), (313, 314), (315, 316), (317, 318)
  , (319, 320), (321, 322), (323, 324), (325, 326), (327, 328), (330, 331)
  , (332, 333), (334, 335), (336, 337), (338, 339), (340, 341), (342, 343)
  , (344, 345), (346, 347), (348, 349), (350, 351), (352, 353), (354, 355)
  , (356, 357), (358, 359), (360, 361), (362, 363), (364, 365), (366, 367)
  , (368, 369), (370, 371), (372, 373), (374, 375), (376, 255), (377, 378)
  , (379, 380), (381, 382), (385, 595), (386, 387), (388, 389), (390, 596)
  , (391, 392), (393, 598), (394, 599), (395, 396), (398, 477), (399, 601)
  , (400, 603), (401, 402), (403, 608), (404, 611), (406, 617), (407, 616)
  , (408, 409), (412, 623), (413, 626), (415, 629), (416, 417), (418, 419)
  , (420, 421), (422, 640), (423, 424), (425, 643), (428, 429), (430, 648)
  , (431, 432), (433, 650), (434, 651), (435, 436), (437, 438), (439, 658)
  , (440, 441), (444, 445), (452, 454), (453, 454), (455, 457), (456, 457)
  , (458, 460), (459, 460), (461, 462), (463, 464), (465, 466), (467, 468)
  , (469, 470), (471, 472), (473, 474), (475, 476), (478, 479), (480, 481)
  , (482, 483), (484, 485), (486, 487), (488, 489), (490, 491), (492, 493)
  , (494, 495), (497, 499), (498, 499), (500, 501), (502, 405), (503, 447)
  , (504, 505), (506, 507), (508, 509), (510, 511), (512, 513), (514, 515)
  , (516, 517), (518, 519), (520, 521), (522, 523), (524, 525), (526, 527)
  , (528, 529), (530, 531), (532, 533), (534, 535), (536, 537), (538, 539)
  , (540, 541), (542, 543), (544, 414), (546, 547), (548, 549), (550, 551) ]

/-- Part 2 of the `str.lower` one-to-one mappings outside ASCII. -/
def lowerTab2 : List (Nat × Nat) :=
  [ (552, 553), (554, 555), (556, 557), (558, 559), (560, 561), (562, 563)
  , (570, 11365), (571, 572), (573, 410), (574, 11366), (577, 578), (579, 384)
  , (580, 649), (581, 652), (582, 583), (584, 585), (586, 587), (588, 589)
  , (590, 591), (880, 881), (882, 883), (886, 887), (895, 1011), (902, 940)
  , (904, 941), (905, 942), (906, 943), (908, 972), (910, 973), (911, 974)
  , (913, 945), (914, 946), (915, 947), (916, 948), (917, 949), (918, 950)
  , (919, 951), (920, 952), (921, 953), (922, 954), (923, 955), (924, 956)
  , (925, 957), (926, 958), (927, 959), (928, 960), (929, 961), (931, 963)
  , (932, 964), (933, 965), (934, 966), (935, 967), (936, 968), (937, 969)
  , (938, 970), (939, 971), (975, 983), (984, 985), (986, 987), (988, 989)
  , (990, 991), (992, 993), (994, 995), (996, 997), (998, 999), (1000, 1001)
  , (1002, 1003), (1004, 1005), (1006, 1007), (1012, 952), (1015, 1016), (1017, 1010)
  , (1018, 1019), (1021, 891), (1022, 892), (1023, 893), (1024, 1104), (1025, 1105)
  , (1026, 1106), (1027, 1107), (1028, 1108), (1029, 1109), (1030, 1110), (1031, 1111)
  , (1032, 1112), (1033, 1113), (1034, 1114), (1035, 1115), (1036, 1116), (1037, 1117)
  , (1038, 1118), (1039, 1119), (1040, 1072), (1041, 1073), (1042, 1074), (1043, 1075)
  , (1044, 1076), (1045, 1077), (1046, 1078), (1047, 1079), (1048, 1080), (1049, 1081)
  , (1050, 1082), (1051, 1083), (1052, 1084), (1053, 1085), (1054, 1086), (1055, 1087)
  , (1056, 1088), (1057, 1089), (1058, 1090), (1059, 1091), (1060, 1092), (1061, 1093)
  , (1062, 1094), (1063, 1095), (1064, 1096), (1065, 1097), (1066, 1098), (1067, 1099)
  , (1068, 1100), (1069, 1101), (1070, 1102), (1071, 1103), (1120, 1121), (1122, 1123)
  , (1124, 1125), (1126, 1127), (1128, 1129), (1130, 1131), (1132, 1133), (1134, 1135)
  , (1136, 1137), (1138, 1139), (1140, 1141), (1142, 1143), (1144, 1145), (1146, 1147)
  , (1148, 1149), (1150, 1151), (1152, 1153), (1162, 1163), (1164, 1165), (1166, 1167)
  , (1168, 1169), (1170, 1171), (1172, 1173), (1174, 1175), (1176, 1177), (1178, 1179)
  , (1180, 1181), (1182, 1183), (1184, 1185), (1186, 1187), (1188, 1189), (1190, 1191)
  , (1192, 1193), (1194, 1195), (1196, 1197), (1198, 1199), (1200, 1201), (1202, 1203)
  , (1204, 1205), (1206, 1207), (1208, 1209), (1210, 1211), (1212, 1213), (1214, 1215)
  , (1216, 1231), (1217, 1218), (1219, 1220), (1221, 1222), (1223, 1224), (1225, 1226)
  , (1227, 1228), (1229, 1230), (1232, 1233), (1234, 1235), (1236, 1237), (1238, 1239) ]

/-- Part 3 of the `str.lower` one-to-one mappings outside ASCII. -/
def lowerTab3 : List (Nat × Nat) :=
  [ (1240, 1241), (1242, 1243), (1244, 1245), (1246, 1247), (1248, 1249), (1250, 1251)
  , (1252, 1253), (1254, 1255), (1256, 1257), (1258, 1259), (1260, 1261), (1262, 1263)
  , (1264, 1265), (1266, 1267), (1268, 1269), (1270, 1271), (1272, 1273), (1274, 1275)
  , (1276, 1277), (1278, 1279), (1280, 1281), (1282, 1283), (1284, 1285), (1286, 1287)
  , (1288, 1289), (1290, 1291), (1292, 1293), (1294, 1295), (1296, 1297), (1298, 1299)
  , (1300, 1301), (1302, 1303), (1304, 1305), (1306, 1307), (1308, 1309), (1310, 1311)
  , (1312, 1313), (1314, 1315), (1316, 1317), (1318, 1319), (1320, 1321), (1322, 1323)
  , (1324, 1325), (1326, 1327), (1329, 1377), (1330, 1378), (1331, 1379), (1332, 1380)
  , (1333, 1381), (1334, 1382), (1335, 1383), (1336, 1384), (1337, 1385), (1338, 1386)
  , (1339, 1387), (1340, 1388), (1341, 1389), (1342, 1390), (1343, 1391), (1344, 1392)
  , (1345, 1393), (1346, 1394), (1347, 1395), (1348, 1396), (1349, 1397), (1350, 1398)
  , (1351, 1399), (1352, 1400), (1353, 1401), (1354, 1402), (1355, 1403), (1356, 1404)
  , (1357, 1405), (1358, 1406), (1359, 1407), (1360, 1408), (1361, 1409), (1362, 1410)
  , (1363, 1411), (1364, 1412), (1365, 1413), (1366, 1414), (4256, 11520), (4257, 11521)
  , (4258, 11522), (4259, 11523), (4260, 11524), (4261, 11525), (4262, 11526), (4263, 11527)
  , (4264, 11528), (4265, 11529), (4266, 11530), (4267, 11531), (4268, 11532), (4269, 11533)
  , (4270, 11534), (4271, 11535), (4272, 11536), (4273, 11537), (4274, 11538), (4275, 11539)
  , (4276, 11540), (4277, 11541), (4278, 11542), (4279, 11543), (4280, 11544), (4281, 11545)
  , (4282, 11546), (4283, 11547), (4284, 11548), (4285, 11549), (4286, 11550), (4287, 11551)
  , (4288, 11552), (4289, 11553), (4290, 11554), (4291, 11555), (4292, 11556), (4293, 11557)
  , (4295, 11559), (4301, 11565), (5024, 43888), (5025, 43889), (5026, 43890), (5027, 43891)
  , (5028, 43892), (5029, 43893), (5030, 43894), (5031, 43895), (5032, 43896), (5033, 43897)
  , (5034, 43898), (5035, 43899), (5036, 43900), (5037, 43901), (5038, 43902), (5039, 43903)
  , (5040, 43904), (5041, 43905), (5042, 43906), (5043, 43907), (5044, 43908), (5045, 43909)
  , (5046, 43910), (5047, 43911), (5048, 43912), (5049, 43913), (5050, 43914), (5051, 43915)
  , (5052, 43916), (5053, 43917), (5054, 43918), (5055, 43919), (5056, 43920), (5057, 43921)
  , (5058, 43922), (5059, 43923), (5060, 43924), (5061, 43925), (5062, 43926), (5063, 43927)
  , (5064, 43928), (5065, 43929), (5066, 43930), (5067, 43931), (5068, 43932), (5069, 43933)
  , (5070, 43934), (5071, 43935), (5072, 43936), (5073, 43937), (5074, 43938), (5075, 43939)
  , (5076, 43940), (5077, 43941), (5078, 43942), (5079, 43943), (5080, 43944), (5081, 43945) ]

/-- Part 4 of the `str.lower` one-to-one mappings outside ASCII. -/
def lowerTab4 : List (Nat × Nat) :=
  [ (5082, 43946), (5083, 43947), (5084, 43948), (5085, 43949), (5086, 43950), (5087, 43951)
  , (5088, 43952), (5089, 43953), (5090, 43954), (5091, 43955), (5092, 43956), (5093, 43957)
  , (5094, 43958), (5095, 43959), (5096, 43960), (5097, 43961), (5098, 43962), (5099, 43963)
  , (5100, 43964), (5101, 43965), (5102, 43966), (5103, 43967), (5104, 5112), (5105, 5113)
  , (5106, 5114), (5107, 5115), (5108, 5116), (5109, 5117), (7312, 4304), (7313, 4305)
  , (7314, 4306), (7315, 4307), (7316, 4308), (7317, 4309), (7318, 4310), (7319, 4311)
  , (7320, 4312), (7321, 4313), (7322, 4314), (7323, 4315), (7324, 4316), (7325, 4317)
  , (7326, 4318), (7327, 4319), (7328, 4320), (7329, 4321), (7330, 4322), (7331, 4323)
  , (7332, 4324), (7333, 4325), (7334, 4326), (7335, 4327), (7336, 4328), (7337, 4329)
  , (7338, 4330), (7339, 4331), (7340, 4332), (7341, 4333), (7342, 4334), (7343, 4335)
  , (7344, 4336), (7345, 4337), (7346, 4338), (7347, 4339), (7348, 4340), (7349, 4341)
  , (7350, 4342), (7351, 4343), (7352, 4344), (7353, 4345), (7354, 4346), (7357, 4349)
  , (7358, 4350), (7359, 4351), (7680, 7681), (7682, 7683), (7684, 7685), (7686, 7687)
  , (7688, 7689), (7690, 7691), (7692, 7693), (7694, 7695), (7696, 7697), (7698, 7699)
  , (7700, 7701), (7702, 7703), (7704, 7705), (7706, 7707), (7708, 7709), (7710, 7711)
  , (7712, 7713), (7714, 7715), (7716, 7717), (7718, 7719), (7720, 7721), (7722, 7723)
  , (7724, 7725), (7726, 7727), (7728, 7729), (7730, 7731), (7732, 7733), (7734, 7735)
  , (7736, 7737), (7738, 7739), (7740, 7741), (7742, 7743), (7744, 7745), (7746, 7747)
  , (7748, 7749), (7750, 7751), (7752, 7753), (7754, 7755), (7756, 7757), (7758, 7759)
  , (7760, 7761), (7762, 7763), (7764, 7765), (7766, 7767), (7768, 7769), (7770, 7771)
  , (7772, 7773), (7774, 7775), (7776, 7777), (7778, 7779), (7780, 7781), (7782, 7783)
  , (7784, 7785), (7786, 7787), (7788, 7789), (7790, 7791), (7792, 7793), (7794, 7795)
  , (7796, 7797), (7798, 7799), (7800, 7801), (7802, 7803), (7804, 7805), (7806, 7807)
  , (7808, 7809), (7810, 7811), (7812, 7813), (7814, 7815), (7816, 7817), (7818, 7819)
  , (7820, 7821), (7822, 7823), (7824, 7825), (7826, 7827), (7828, 7829), (7838, 223)
  , (7840, 7841), (7842, 7843), (7844, 7845), (7846, 7847), (7848, 7849), (7850, 7851)
  , (7852, 7853), (7854, 7855), (7856, 7857), (7858, 7859), (7860, 7861), (7862, 7863)
  , (7864, 7865), (7866, 7867), (7868, 7869), (7870, 7871), (7872, 7873), (7874, 7875)
  , (7876, 7877), (7878, 7879), (7880, 7881), (7882, 7883), (7884, 7885), (7886, 7887)
  , (7888, 7889), (7890, 7891), (7892, 7893), (7894, 7895), (7896, 7897), (7898, 7899) ]

/-- Part 5 of the `str.lower` one-to-one mappings outside ASCII. -/
def lowerTab5 : List (Nat × Nat) :=
  [ (7900, 7901), (7902, 7903), (7904, 7905), (7906, 7907), (7908, 7909), (7910, 7911)
  , (7912, 7913), (7914, 7915), (7916, 7917), (7918, 7919), (7920, 7921), (7922, 7923)
  , (7924, 7925), (7926, 7927), (7928, 7929), (7930, 7931), (7932, 7933), (7934, 7935)
  , (7944, 7936), (7945, 7937), (7946, 7938), (7947, 7939), (7948, 7940), (7949, 7941)
  , (7950, 7942), (7951, 7943), (7960, 7952), (7961, 7953), (7962, 7954), (7963, 7955)
  , (7964, 7956), (7965, 7957), (7976, 7968), (7977, 7969), (7978, 7970), (7979, 7971)
  , (7980, 7972), (7981, 7973), (7982, 7974), (7983, 7975), (7992, 7984), (7993, 7985)
  , (7994, 7986), (7995, 7987), (7996, 7988), (7997, 7989), (7998, 7990), (7999, 7991)
  , (8008, 8000), (8009, 8001), (8010, 8002), (8011, 8003), (8012, 8004), (8013, 8005)
  , (8025, 8017), (8027, 8019), (8029, 8021), (8031, 8023), (8040, 8032), (8041, 8033)
  , (8042, 8034), (8043, 8035), (8044, 8036), (8045, 8037), (8046, 8038), (8047, 8039)
  , (8072, 8064), (8073, 8065), (8074, 8066), (8075, 8067), (8076, 8068), (8077, 8069)
  , (8078, 8070), (8079, 8071), (8088, 8080), (8089, 8081), (8090, 8082), (8091, 8083)
  , (8092, 8084), (8093, 8085), (8094, 8086), (8095, 8087), (8104, 8096), (8105, 8097)
  , (8106, 8098), (8107, 8099), (8108, 8100), (8109, 8101), (8110, 8102), (8111, 8103)
  , (8120, 8112), (8121, 8113), (8122, 8048), (8123, 8049), (8124, 8115), (8136, 8050)
  , (8137, 8051), (8138, 8052), (8139, 8053), (8140, 8131), (8152, 8144), (8153, 8145)
  , (8154, 8054), (8155, 8055), (8168, 8160), (8169, 8161), (8170, 8058), (8171, 8059)
  , (8172, 8165), (8184, 8056), (8185, 8057), (8186, 8060), (8187, 8061), (8188, 8179)
  , (8486, 969), (8490, 107), (8491, 229), (8498, 8526), (8544, 8560), (8545, 8561)
  , (8546, 8562), (8547, 8563), (8548, 8564), (8549, 8565), (8550, 8566), (8551, 8567)
  , (8552, 8568), (8553, 8569), (8554, 8570), (8555, 8571), (8556, 8572), (8557, 8573)
  , (8558, 8574), (8559, 8575), (8579, 8580), (9398, 9424), (9399, 9425), (9400, 9426)
  , (9401, 9427), (9402, 9428), (9403, 9429), (9404, 9430), (9405, 9431), (9406, 9432)
  , (9407, 9433), (9408, 9434), (9409, 9435), (9410, 9436), (9411, 9437), (9412, 9438)
  , (9413, 9439), (9414, 9440), (9415, 9441), (9416, 9442), (9417, 9443), (9418, 9444)
  , (9419, 9445), (9420, 9446), (9421, 9447), (9422, 9448), (9423, 9449), (11264, 11312)
  , (11265, 11313), (11266, 11314), (11267, 11315), (11268, 11316), (11269, 11317), (11270, 11318)
  , (11271, 11319), (11272, 11320), (11273, 11321), (11274, 11322), (11275, 11323), (11276, 11324)
  , (11277, 11325), (11278, 11326), (11279, 11327), (11280, 11328), (11281, 11329), (11282, 11330) ]

/-- Part 6 of the `str.lower` one-to-one mappings outside ASCII. -/
def lowerTab6 : List (Nat × Nat) :=
  [ (11283, 11331), (11284, 11332), (11285, 11333), (11286, 11334), (11287, 11335), (11288, 11336)
  , (11289, 11337), (11290, 11338), (11291, 11339), (11292, 11340), (11293, 11341), (11294, 11342)
  , (11295, 11343), (11296, 11344), (11297, 11345), (11298, 11346), (11299, 11347), (11300, 11348)
  , (11301, 11349), (11302, 11350), (11303, 11351), (11304, 11352), (11305, 11353), (11306, 11354)
  , (11307, 11355), (11308, 11356), (11309, 11357), (11310, 11358), (11311, 11359), (11360, 11361)
  , (11362, 619), (11363, 7549), (11364, 637), (11367, 11368), (11369, 11370), (11371, 11372)
  , (11373, 593), (11374, 625), (11375, 592), (11376, 594), (11378, 11379), (11381, 11382)
  , (11390, 575), (11391, 576), (11392, 11393), (11394, 11395), (11396, 11397), (11398, 11399)
  , (11400, 11401), (11402, 11403), (11404, 11405), (11406, 11407), (11408, 11409), (11410, 11411)
  , (11412, 11413), (11414, 11415), (11416, 11417), (11418, 11419), (11420, 11421), (11422, 11423)
  , (11424, 11425), (11426, 11427), (11428, 11429), (11430, 11431), (11432, 11433), (11434, 11435)
  , (11436, 11437), (11438, 11439), (11440, 11441), (11442, 11443), (11444, 11445), (11446, 11447)
  , (11448, 11449), (11450, 11451), (11452, 11453), (11454, 11455), (11456, 11457), (11458, 11459)
  , (11460, 11461), (11462, 11463), (11464, 11465), (11466, 11467), (11468, 11469), (11470, 11471)
  , (11472, 11473), (11474, 11475), (11476, 11477), (11478, 11479), (11480, 11481), (11482, 11483)
  , (11484, 11485), (11486, 11487), (11488, 11489), (11490, 11491), (11499, 11500), (11501, 11502)
  , (11506, 11507), (42560, 42561), (42562, 42563), (42564, 42565), (42566, 42567), (42568, 42569)
  , (42570, 42571), (42572, 42573), (42574, 42575), (42576, 42577), (42578, 42579), (42580, 42581)
  , (42582, 42583), (42584, 42585), (42586, 42587), (42588, 42589), (42590, 42591), (42592, 42593)
  , (42594, 42595), (42596, 42597), (42598, 42599), (42600, 42601), (42602, 42603), (42604, 42605)
  , (42624, 42625), (42626, 42627), (42628, 42629), (42630, 42631), (42632, 42633), (42634, 42635)
  , (42636, 42637), (42638, 42639), (42640, 42641), (42642, 42643), (42644, 42645), (42646, 42647)
  , (42648, 42649), (42650, 42651), (42786, 42787), (42788, 42789), (42790, 42791), (42792, 42793)
  , (42794, 42795), (42796, 42797), (42798, 42799), (42802, 42803), (42804, 42805), (42806, 42807)
  , (42808, 42809), (42810, 42811), (42812, 42813), (42814, 42815), (42816, 42817), (42818, 42819)
  , (42820, 42821), (42822, 42823), (42824, 42825), (42826, 42827), (42828, 42829), (42830, 42831)
  , (42832, 42833), (42834, 42835), (42836, 42837), (42838, 42839), (42840, 42841), (42842, 42843)
  , (42844, 42845), (42846, 42847), (42848, 42849), (42850, 42851), (42852, 42853), (42854, 42855)
  , (42856, 42857), (42858, 42859), (42860, 42861), (42862, 42863), (42873, 42874), (42875, 42876)
  , (42877, 7545), (42878, 42879), (42880, 42881), (42882, 42883), (42884, 42885), (42886, 42887) ]

/-- Part 7 of the `str.lower` one-to-one mappings outside ASCII. -/
def lowerTab7 : List (Nat × Nat) :=
  [ (42891, 42892), (42893, 613), (42896, 42897), (42898, 42899), (42902, 42903), (42904, 42905)
  , (42906, 42907), (42908, 42909), (42910, 42911), (42912, 42913), (42914, 42915), (42916, 42917)
  , (42918, 42919), (42920, 42921), (42922, 614), (42923, 604), (42924, 609), (42925, 620)
  , (42926, 618), (42928, 670), (42929, 647), (42930, 669), (42931, 43859), (42932, 42933)
  , (42934, 42935), (42936, 42937), (42938, 42939), (42940, 42941), (42942, 42943), (42944, 42945)
  , (42946, 42947), (42948, 42900), (42949, 642), (42950, 7566), (42951, 42952), (42953, 42954)
  , (42960, 42961), (42966, 42967), (42968, 42969), (42997, 42998), (65313, 65345), (65314, 65346)
  , (65315, 65347), (65316, 65348), (65317, 65349), (65318, 65350), (65319, 65351), (65320, 65352)
  , (65321, 65353), (65322, 65354), (65323, 65355), (65324, 65356), (65325, 65357), (65326, 65358)
  , (65327, 65359), (65328, 65360), (65329, 65361), (65330, 65362), (65331, 65363), (65332, 65364)
  , (65333, 65365), (65334, 65366), (65335, 65367), (65336, 65368), (65337, 65369), (65338, 65370)
  , (66560, 66600), (66561, 66601), (66562, 66602), (66563, 66603), (66564, 66604), (66565, 66605)
  , (66566, 66606), (66567, 66607), (66568, 66608), (66569, 66609), (66570, 66610), (66571, 66611)
  , (66572, 66612), (66573, 66613), (66574, 66614), (66575, 66615), (66576, 66616), (66577, 66617)
  , (66578, 66618), (66579, 66619), (66580, 66620), (66581, 66621), (66582, 66622), (66583, 66623)
  , (66584, 66624), (66585, 66625), (66586, 66626), (66587, 66627), (66588, 66628), (66589, 66629)
  , (66590, 66630), (66591, 66631), (66592, 66632), (66593, 66633), (66594, 66634), (66595, 66635)
  , (66596, 66636), (66597, 66637), (66598, 66638), (66599, 66639), (66736, 66776), (66737, 66777)
  , (66738, 66778), (66739, 66779), (66740, 66780), (66741, 66781), (66742, 66782), (66743, 66783)
  , (66744, 66784), (66745, 66785), (66746, 66786), (66747, 66787), (66748, 66788), (66749, 66789)
  , (66750, 66790), (66751, 66791), (66752, 66792), (66753, 66793), (66754, 66794), (66755, 66795)
  , (66756, 66796), (66757, 66797), (66758, 66798), (66759, 66799), (66760, 66800), (66761, 66801)
  , (66762, 66802), (66763, 66803), (66764, 66804), (66765, 66805), (66766, 66806), (66767, 66807)
  , (66768, 66808), (66769, 66809), (66770, 66810), (66771, 66811), (66928, 66967), (66929, 66968)
  , (66930, 66969), (66931, 66970), (66932, 66971), (66933, 66972), (66934, 66973), (66935, 66974)
  , (66936, 66975), (66937, 66976), (66938, 66977), (66940, 66979), (66941, 66980), (66942, 66981)
  , (66943, 66982), (66944, 66983), (66945, 66984), (66946, 66985), (66947, 66986), (66948, 66987)
  , (66949, 66988), (66950, 66989), (66951, 66990), (66952, 66991), (66953, 66992), (66954, 66993)
  , (66956, 66995), (66957, 66996), (66958, 66997), (66959, 66998), (66960, 66999), (66961, 67000)
  , (66962, 67001), (66964, 67003), (66965, 67004), (68736, 68800), (68737, 68801), (68738, 68802) ]

/-- Part 8 of the `str.lower` one-to-one mappings outside ASCII. -/
def lowerTab8 : List (Nat × Nat) :=
  [ (68739, 68803), (68740, 68804), (68741, 68805), (68742, 68806), (68743, 68807), (68744, 68808)
  , (68745, 68809), (68746, 68810), (68747, 68811), (68748, 68812), (68749, 68813), (68750, 68814)
  , (68751, 68815), (68752, 68816), (68753, 68817), (68754, 68818), (68755, 68819), (68756, 68820)
  , (68757, 68821), (68758, 68822), (68759, 68823), (68760, 68824), (68761, 68825), (68762, 68826)
  , (68763, 68827), (68764, 68828), (68765, 68829), (68766, 68830), (68767, 68831), (68768, 68832)
  , (68769, 68833), (68770, 68834), (68771, 68835), (68772, 68836), (68773, 68837), (68774, 68838)
  , (68775, 68839), (68776, 68840), (68777, 68841), (68778, 68842), (68779, 68843), (68780, 68844)
  , (68781, 68845), (68782, 68846), (68783, 68847), (68784, 68848), (68785, 68849), (68786, 68850)
  , (71840, 71872), (71841, 71873), (71842, 71874), (71843, 71875), (71844, 71876), (71845, 71877)
  , (71846, 71878), (71847, 71879), (71848, 71880), (71849, 71881), (71850, 71882), (71851, 71883)
  , (71852, 71884), (71853, 71885), (71854, 71886), (71855, 71887), (71856, 71888), (71857, 71889)
  , (71858, 71890), (71859, 71891), (71860, 71892), (71861, 71893), (71862, 71894), (71863, 71895)
  , (71864, 71896), (71865, 71897), (71866, 71898), (71867, 71899), (71868, 71900), (71869, 71901)
  , (71870, 71902), (71871, 71903), (93760, 93792), (93761, 93793), (93762, 93794), (93763, 93795)
  , (93764, 93796), (93765, 93797), (93766, 93798), (93767, 93799), (93768, 93800), (93769, 93801)
  , (93770, 93802), (93771, 93803), (93772, 93804), (93773, 93805), (93774, 93806), (93775, 93807)
  , (93776, 93808), (93777, 93809), (93778, 93810), (93779, 93811), (93780, 93812), (93781, 93813)
  , (93782, 93814), (93783, 93815), (93784, 93816), (93785, 93817), (93786, 93818), (93787, 93819)
  , (93788, 93820), (93789, 93821), (93790, 93822), (93791, 93823), (125184, 125218), (125185, 125219)
  , (125186, 125220), (125187, 125221), (125188, 125222), (125189, 125223), (125190, 125224), (125191, 125225)
  , (125192, 125226), (125193, 125227), (125194, 125228), (125195, 125229), (125196, 125230), (125197, 125231)
  , (125198, 125232), (125199, 125233), (125200, 125234), (125201, 125235), (125202, 125236), (125203, 125237)
  , (125204, 125238), (125205, 125239), (125206, 125240), (125207, 125241), (125208, 125242), (125209, 125243)
  , (125210, 125244), (125211, 125245), (125212, 125246), (125213, 125247), (125214, 125248), (125215, 125249)
  , (125216, 125250), (125217, 125251) ]

/-- All one-to-one `str.lower` mappings outside ASCII (code point of the
cased character paired with the code point of its lowercase form). -/
def lowerTab : List (Nat × Nat) :=
  lowerTab1 ++ lowerTab2 ++ lowerTab3 ++ lowerTab4 ++ lowerTab5 ++ lowerTab6 ++ lowerTab7 ++ lowerTab8

/-- Python `str.lower` on one character: ASCII uppercase shifts by 32,
U+0130 expands to a dotted `i` followed by a combining dot above, every
other cased character maps through the table, and the rest are fixed. -/
def pyLowerChar (c : Char) : List Char :=
  if c.toNat < 128 then
    if 65 ≤ c.toNat ∧ c.toNat ≤ 90 then [Char.ofNat (c.toNat + 32)] else [c]
  else if c.toNat = 304 then [Char.ofNat 105, Char.ofNat 775]
  else
    match lowerTab.find? (fun p => p.1 = c.toNat) with
    | some p => [Char.ofNat p.2]
    | none => [c]

/-- Python `str.strip()` on a character list. -/
def pyUStrip (cs : List Char) : List Char :=
  ((cs.dropWhile isPyUSpace).reverse.dropWhile isPyUSpace).reverse

/-- `reload_date.strip().lower()` as a character list. -/
def normalizeDate (s : String) : List Char :=
  ((pyUStrip s.data).map pyLowerChar).flatten

/-- Regex class `[01]\d|2[0-3]` on the two hour characters. -/
abbrev hourClsU (x y : Char) : Prop :=
  (x.toNat = 48 ∨ x.toNat = 49) ∧ isPyDigit y = true
    ∨ x.toNat = 50 ∧ 48 ≤ y.toNat ∧ y.toNat ≤ 51

/-- Regex class `[0-5]\d` on the two minute characters. -/
abbrev minuteClsU (x y : Char) : Prop :=
  (48 ≤ x.toNat ∧ x.toNat ≤ 53) ∧ isPyDigit y = true

/-- Regex class `[0-2]\d|3[01]` on the two day characters. -/
abbrev dayClsU (x y : Char) : Prop :=
  (48 ≤ x.toNat ∧ x.toNat ≤ 50) ∧ isPyDigit y = true
    ∨ x.toNat = 51 ∧ (y.toNat = 48 ∨ y.toNat = 49)

/-- The month alternatives of the regex, in alternation order, with their
month numbers. -/
def monthTable : List ((Char × Char × Char) × Nat) :=
  [ (('j','a','n'), 1), (('f','e','b'), 2), (('m','a','r'), 3), (('a','p','r'), 4)
  , (('m','a','y'), 5), (('j','u','n'), 6), (('j','u','l'), 7), (('a','u','g'), 8)
  , (('s','e','p'), 9), (('o','c','t'), 10), (('n','o','v'), 11), (('d','e','c'), 12) ]

/-- The regex month alternation `jan|feb|...|dec`, returned as the month
number so that membership in the source's literal month lists can be
written numerically (2 = feb, {4,6,9,11} = apr/jun/sep/nov). -/
def monthNum (a b c : Char) : Option Nat :=
  (monthTable.find? (fun e => e.1.1 = a && e.1.2.1 = b && e.1.2.2 = c)).map (·.2)

/-- Numeric value of a two-digit field whose characters are ASCII. -/
def digitsVal (x y : Char) : Nat := (x.toNat - 48) * 10 + (y.toNat - 48)

/-- Numeric value of a two-digit field whose leading character is ASCII
and whose trailing character may be any decimal digit (Python
`int(group)`). -/
def digitsValU (x y : Char) : Nat := (x.toNat - 48) * 10 + pyDigitVal y

/-- The staged day-bound checks after the regex matched: `day > 31` is
rejected, days over 30 are rejected for apr/jun/sep/nov, days over 29 for
feb; otherwise the function returns `True`. -/
def srcDayBounds (day : Nat) (mon : Option Nat) : Bool :=
  if day > 31 then false
  else if (mon = some 4 ∨ mon = some 6 ∨ mon = some 9 ∨ mon = some 11) ∧ day > 30 then
    false
  else if mon = some 2 ∧ day > 29 then false
  else true

/-- `validate_reload_date` applied to the normalized character list. -/
def validateReloadChars (cs : List Char) : Bool :=
  match cs with
  | [h1, h2, c1, m1, m2, sp1, d1, d2, sp2, a, b, c] =>
    if c1 = ':' ∧ isPyUSpace sp1 = true ∧ isPyUSpace sp2 = true
        ∧ hourClsU h1 h2 ∧ minuteClsU m1 m2 ∧ dayClsU d1 d2
        ∧ (monthNum a b c).isSome then
      srcDayBounds (digitsValU d1 d2) (monthNum a b c)
    else false
  | _ => false

/-- `validate_reload_date(reload_date)`. -/
def validateReloadDate (s : String) : Bool :=
  validateReloadChars (normalizeDate s)

/-- Spec-side month bound, from the claim's words: 31 generally, 30 for
apr/jun/sep/nov, 29 for feb — no leap-year handling. -/
def monthBoundSpec (n : Nat) : Nat :=
  if n = 2 then 29 else if n = 4 ∨ n = 6 ∨ n = 9 ∨ n = 11 then 30 else 31

/-- Spec-side day acceptance for a recognized (or unrecognized) month. -/
def specMonthDay (mon : Option Nat) (day : Nat) : Bool :=
  match mon with
  | some n => decide (day ≤ monthBoundSpec n)
  | none => false

/-- The original claim's acceptance predicate, written from its words: the
string has the exact shape `HH:MM DD MON` with ASCII digits and literal
space separators, the clock is 24-hour (`HH < 24`, `MM < 60`), the month
is a mandatory 3-letter abbreviation, and the two-digit day does not
exceed the month's bound. -/
def specReloadChars (cs : List Char) : Bool :=
  match cs with
  | [h1, h2, c1, m1, m2, sp1, d1, d2, sp2, a, b, c] =>
    decide (c1 = ':' ∧ sp1 = ' ' ∧ sp2 = ' ') &&
    decide ((48 ≤ h1.toNat ∧ h1.toNat ≤ 57) ∧ (48 ≤ h2.toNat ∧ h2.toNat ≤ 57)
      ∧ (48 ≤ m1.toNat ∧ m1.toNat ≤ 57) ∧ (48 ≤ m2.toNat ∧ m2.toNat ≤ 57)
      ∧ (48 ≤ d1.toNat ∧ d1.toNat ≤ 57) ∧ (48 ≤ d2.toNat ∧ d2.toNat ≤ 57)
      ∧ digitsVal h1 h2 < 24 ∧ digitsVal m1 m2 < 60) &&
    specMonthDay (monthNum a b c) (digitsVal d1 d2)
  | _ => false

/-- The amended acceptance predicate, written from the amended claim's
words: the shape is `HH:MM DD MON` where each separator is any single
Python whitespace character, the leading character of each two-digit
field is the ASCII digit the regex alternation pins down while the
trailing character may be any Unicode decimal digit (ASCII-constrained
exactly where the regex uses a literal class, i.e. after a leading `2`
in the hour and a leading `3` in the day), the field values respect the
24-hour clock and the day stays within `[0-2]x` or `30`/`31`, and the
day does not exceed the month's bound. -/
def specReloadCharsU (cs : List Char) : Bool :=
  match cs with
  | [h1, h2, c1, m1, m2, sp1, d1, d2, sp2, a, b, c] =>
    decide (c1 = ':' ∧ isPyUSpace sp1 = true ∧ isPyUSpace sp2 = true) &&
    decide (((h1.toNat = 48 ∨ h1.toNat = 49) ∧ isPyDigit h2 = true
        ∨ h1.toNat = 50 ∧ 48 ≤ h2.toNat ∧ h2.toNat ≤ 57 ∧ digitsValU h1 h2 < 24)
      ∧ ((48 ≤ m1.toNat ∧ m1.toNat ≤ 57) ∧ isPyDigit m2 = true ∧ digitsValU m1 m2 < 60)
      ∧ ((48 ≤ d1.toNat ∧ d1.toNat ≤ 50) ∧ isPyDigit d2 = true
        ∨ d1.toNat = 51 ∧ 48 ≤ d2.toNat ∧ d2.toNat ≤ 57 ∧ digitsValU d1 d2 ≤ 31)) &&
    specMonthDay (monthNum a b c) (digitsValU d1 d2)
  | _ => false

theorem ifCondFalse (p : Prop) [Decidable p] (t : Bool) :
    (if p then t else false) = (decide p && t) := by
  by_cases h : p <;> simp [h]

theorem srcDayBounds_eq_decide (day : Nat) (n : Nat) :
    srcDayBounds day (some n) =
      decide (day ≤ 31 ∧ ((n = 4 ∨ n = 6 ∨ n = 9 ∨ n = 11) → day ≤ 30)
        ∧ (n = 2 → day ≤ 29)) := by
  unfold srcDayBounds
  simp only [Option.some.injEq]
  split_ifs <;>
    first
      | (symm; simp only [decide_eq_false_iff_not]; omega)
      | (symm; simp only [decide_eq_true_eq]; omega)

theorem monthNum_range (a b c : Char) (n : Nat) (hm : monthNum a b c = some n) :
    1 ≤ n ∧ n ≤ 12 := by
  unfold monthNum at hm
  cases ho : monthTable.find? (fun e => e.1.1 = a && e.1.2.1 = b && e.1.2.2 = c) with
  | none => rw [ho] at hm; exact absurd hm (by simp)
  | some e =>
    rw [ho] at hm
    have hmem := List.mem_of_find?_eq_some ho
    simp only [Option.map_some', Option.some.injEq] at hm
    subst hm
    fin_cases hmem <;> omega

theorem monthBoundSpec_facts (n : Nat) :
    (n = 2 → monthBoundSpec n = 29)
      ∧ ((n = 4 ∨ n = 6 ∨ n = 9 ∨ n = 11) → monthBoundSpec n = 30)
      ∧ (¬(n = 2 ∨ n = 4 ∨ n = 6 ∨ n = 9 ∨ n = 11) → monthBoundSpec n = 31) := by
  unfold monthBoundSpec
  split_ifs <;> omega

theorem pyDigitVal_lt (c : Char) : pyDigitVal c < 10 := by
  unfold pyDigitVal
  split
  · exact Nat.mod_lt _ (by omega)
  · omega

theorem pyDigitVal_ascii (c : Char) (h1 : 48 ≤ c.toNat) (h2 : c.toNat ≤ 57) :
    pyDigitVal c = c.toNat - 48 := by
  have hf : ndRuns.find? (fun r => decide (r.1 ≤ c.toNat) && decide (c.toNat ≤ r.2))
      = some (48, 57) := by
    unfold ndRuns
    rw [List.find?_cons_of_pos]
    simp only [Bool.and_eq_true, decide_eq_true_eq]
    exact ⟨h1, h2⟩
  unfold pyDigitVal
  rw [hf]
  exact Nat.mod_eq_of_lt (by omega)

/-- Character-level equivalence of the source validator with the amended
acceptance predicate. -/
theorem reload_chars_equiv (cs : List Char) :
    validateReloadChars cs = specReloadCharsU cs := by
  match cs with
  | [] => rfl
  | [_] => rfl
  | [_, _] => rfl
  | [_, _, _] => rfl
  | [_, _, _, _] => rfl
  | [_, _, _, _, _] => rfl
  | [_, _, _, _, _, _] => rfl
  | [_, _, _, _, _, _, _] => rfl
  | [_, _, _, _, _, _, _, _] => rfl
  | [_, _, _, _, _, _, _, _, _] => rfl
  | [_, _, _, _, _, _, _, _, _, _] => rfl
  | [_, _, _, _, _, _, _, _, _, _, _] => rfl
  | _ :: _ :: _ :: _ :: _ :: _ :: _ :: _ :: _ :: _ :: _ :: _ :: _ :: _ => rfl
  | [h1, h2, c1, m1, m2, sp1, d1, d2, sp2, a, b, c] =>
    show validateReloadChars _ = specReloadCharsU _
    rw [show validateReloadChars [h1, h2, c1, m1, m2, sp1, d1, d2, sp2, a, b, c] =
        (if c1 = ':' ∧ isPyUSpace sp1 = true ∧ isPyUSpace sp2 = true
            ∧ hourClsU h1 h2 ∧ minuteClsU m1 m2 ∧ dayClsU d1 d2
            ∧ (monthNum a b c).isSome then
          srcDayBounds (digitsValU d1 d2) (monthNum a b c)
        else false) from rfl]
    rw [show specReloadCharsU [h1, h2, c1, m1, m2, sp1, d1, d2, sp2, a, b, c] =
        (decide (c1 = ':' ∧ isPyUSpace sp1 = true ∧ isPyUSpace sp2 = true) &&
         decide (((h1.toNat = 48 ∨ h1.toNat = 49) ∧ isPyDigit h2 = true
             ∨ h1.toNat = 50 ∧ 48 ≤ h2.toNat ∧ h2.toNat ≤ 57 ∧ digitsValU h1 h2 < 24)
           ∧ ((48 ≤ m1.toNat ∧ m1.toNat ≤ 57) ∧ isPyDigit m2 = true
             ∧ digitsValU m1 m2 < 60)
           ∧ ((48 ≤ d1.toNat ∧ d1.toNat ≤ 50) ∧ isPyDigit d2 = true
             ∨ d1.toNat = 51 ∧ 48 ≤ d2.toNat ∧ d2.toNat ≤ 57 ∧ digitsValU d1 d2 ≤ 31)) &&
         specMonthDay (monthNum a b c) (digitsValU d1 d2)) from rfl]
    rw [ifCondFalse]
    cases hm : monthNum a b c with
    | none =>
      simp [hm, specMonthDay]
    | some n =>
      rw [srcDayBounds_eq_decide]
      simp only [specMonthDay, hm, Option.isSome_some]
      rw [Bool.eq_iff_iff]
      simp only [Bool.and_eq_true, decide_eq_true_eq, hourClsU, minuteClsU, dayClsU,
        eq_self_iff_true, and_true]
      have hv2 := pyDigitVal_lt h2
      have hvm := pyDigitVal_lt m2
      have hvd := pyDigitVal_lt d2
      have hn := monthNum_range a b c n hm
      have hbf := monthBoundSpec_facts n
      constructor
      · rintro ⟨⟨s1, s2, s3, hh, hmn, hd⟩, bd⟩
        refine ⟨⟨⟨s1, s2, s3⟩, ?_, ?_, ?_⟩, ?_⟩
        · rcases hh with ⟨hx, hy⟩ | ⟨hx, hy⟩
          · exact Or.inl ⟨hx, hy⟩
          · have ha := pyDigitVal_ascii h2 (by omega) (by omega)
            right
            simp only [digitsValU]
            omega
        · obtain ⟨hx, hy⟩ := hmn
          refine ⟨⟨hx.1, by omega⟩, hy, ?_⟩
          simp only [digitsValU]
          omega
        · rcases hd with ⟨hx, hy⟩ | ⟨hx, hy⟩
          · exact Or.inl ⟨hx, hy⟩
          · have ha := pyDigitVal_ascii d2 (by omega) (by omega)
            right
            simp only [digitsValU]
            omega
        · simp only [digitsValU] at bd ⊢
          omega
      · rintro ⟨⟨⟨s1, s2, s3⟩, hh, hmn, hd⟩, md⟩
        refine ⟨⟨s1, s2, s3, ?_, ?_, ?_⟩, ?_⟩
        · rcases hh with ⟨hx, hy⟩ | ⟨hx, hy1, hy2, hv⟩
          · exact Or.inl ⟨hx, hy⟩
          · have ha := pyDigitVal_ascii h2 (by omega) (by omega)
            right
            simp only [digitsValU] at hv
            omega
        · obtain ⟨hx, hy, hv⟩ := hmn
          refine ⟨⟨hx.1, ?_⟩, hy⟩
          simp only [digitsValU] at hv
          omega
        · rcases hd with ⟨hx, hy⟩ | ⟨hx, hy1, hy2, hv⟩
          · exact Or.inl ⟨hx, hy⟩
          · have ha := pyDigitVal_ascii d2 (by omega) (by omega)
            right
            simp only [digitsValU] at hv
            omega
        · simp only [digitsValU] at md ⊢
          omega

/-- C6 counterexample: the source regex separates the fields with `\s`,
which also matches a tab, so `validate_reload_date` accepts
`"14:30\t05 jan"` even though that string is not of the claimed literal
`HH:MM DD MON` form (space separators). -/
theorem C6_validate_reload_date_cex :
    validateReloadDate "14:30\t05 jan" = true ∧
    specReloadChars ("14:30\t05 jan").data = false := by
  constructor <;> decide

/-- C6: `validate_reload_date` accepts exactly the strings that, after
Python stripping and lowercasing, have the shape `HH:MM DD MON` in which
the two separators are any single Python whitespace character, the
trailing digit of each two-digit field may be any Unicode decimal digit
(ASCII-bounded only where the regex pins a literal class), the clock is
24-hour, and the day does not exceed the month's bound (31 generally, 30
for apr/jun/sep/nov, 29 for feb, no leap-year handling); in particular
`"14:30 05 jan"` validates true, `"14:30 31 apr"` false, `"25:00 05 jan"`
false, and strings missing the month token false. -/
theorem C6_validate_reload_date_amended :
    (∀ s : String, validateReloadDate s = specReloadCharsU (normalizeDate s)) ∧
    validateReloadDate "14:30 05 jan" = true ∧
    validateReloadDate "14:30 31 apr" = false ∧
    validateReloadDate "25:00 05 jan" = false ∧
    validateReloadDate "14:30 05" = false ∧
    validateReloadDate "14:30 05 xyz" = false := by
  refine ⟨fun s => reload_chars_equiv (normalizeDate s), ?_, ?_, ?_, ?_, ?_⟩ <;> decide


/-! ## `tasks/flash.py`: `_match_ios_version`

`re.match` anchors at the start of the version string; the built patterns
are searched anywhere in the target.  The extended-format patterns are
literal strings after escaping, so they become substring searches; the
simple-format pattern `major\.minor\.0?patch(?!\d)` is an anchored-window
search with an optional leading zero and a trailing negative lookahead. -/

/-- `\d`. -/
def isDig (c : Char) : Bool := 48 ≤ c.toNat && c.toNat ≤ 57

/-- Consume a literal character sequence, returning the remainder. -/
def dropLit : List Char → List Char → Option (List Char)
  | [], cs => some cs
  | _ :: _, [] => none
  | l :: ls, c :: cs => if c = l then dropLit ls cs else none

/-- `re.search` of a fully literal pattern: the pattern occurs starting at
some position of the target. -/
def containsSub (pat : List Char) : List Char → Bool
  | [] => (dropLit pat []).isSome
  | c :: rest => (dropLit pat (c :: rest)).isSome || containsSub pat rest

/-- `re.match(r"(\d+)\.(\d+)\((\d+)\)([A-Z])(\d+)", version)`: the groups
of the extended version format, parsed from the front (each `\d+` is
greedy and its follower is a non-digit, so parsing is deterministic). -/
def extendedParse (cs : List Char) : Option (List Char × List Char × List Char × Char × List Char) :=
  let maj := cs.takeWhile isDig
  match maj, cs.dropWhile isDig with
  | _ :: _, '.' :: r2 =>
    let mn := r2.takeWhile isDig
    match mn, r2.dropWhile isDig with
    | _ :: _, '(' :: r4 =>
      let pt := r4.takeWhile isDig
      match pt, r4.dropWhile isDig with
      | _ :: _, ')' :: t :: r7 =>
        if 65 ≤ t.toNat && t.toNat ≤ 90 then
          match r7.takeWhile isDig with
          | [] => none
          | tn => some (maj, mn, pt, t, tn)
        else none
      | _, _ => none
    | _, _ => none
  | _, _ => none

/-- `re.match(r"(\d+)\.(\d+)\.(\d+)", version)`: the three groups of the
simple dotted format, parsed from the front. -/
def simpleParse (cs : List Char) : Option (List Char × List Char × List Char) :=
  let maj := cs.takeWhile isDig
  match maj, cs.dropWhile isDig with
  | _ :: _, '.' :: r2 =>
    let mn := r2.takeWhile isDig
    match mn, r2.dropWhile isDig with
    | _ :: _, '.' :: r4 =>
      match r4.takeWhile isDig with
      | [] => none
      | pt => some (maj, mn, pt)
    | _, _ => none
  | _, _ => none

/-- The negative lookahead `(?!\d)`: the next character, if any, is not a
digit. -/
def noDigitNext : List Char → Bool
  | [] => true
  | c :: _ => !isDig c

/-- Match `major\.minor\.0?patch(?!\d)` at the current position. -/
def matchSimpleAt (maj mn pt cs : List Char) : Bool :=
  match dropLit (maj ++ '.' :: mn ++ ['.']) cs with
  | none => false
  | some rest =>
    (match dropLit ('0' :: pt) rest with
     | some r2 => noDigitNext r2
     | none => false) ||
    (match dropLit pt rest with
     | some r2 => noDigitNext r2
     | none => false)

/-- `re.search` of the simple-format pattern: try every start position. -/
def searchSimple (maj mn pt : List Char) : List Char → Bool
  | [] => matchSimpleAt maj mn pt []
  | c :: rest => matchSimpleAt maj mn pt (c :: rest) || searchSimple maj mn pt rest

/-- `_match_ios_version(version, target_string)`. -/
def matchIosVersion (version target : String) : Bool :=
  if version = "" || target = "" then false
  else
    match extendedParse version.data with
    | some (maj, mn, pt, t, tn) =>
      -- original-parenthesized pattern, then hyphenated pattern
      containsSub (maj ++ '.' :: mn ++ '(' :: pt ++ ')' :: t :: tn) target.data ||
      containsSub (maj ++ mn ++ '-' :: pt ++ '.' :: t :: tn) target.data
    | none =>
      match simpleParse version.data with
      | some (maj, mn, pt) => searchSimple maj mn pt target.data
      | none => false

/-- C2: the version matcher satisfies the three specified examples —
zero-padded patch tolerated, hyphen-encoded extended form recognized, and
no suffix-digit false positive thanks to the negative lookahead. -/
theorem C2_match_ios_version :
    matchIosVersion "17.6.2" "asr1000-rpbase.17.6.02.SPA.pkg" = true ∧
    matchIosVersion "15.2(4)E6" "c2960-lanbasek9-mz.152-4.E6.bin" = true ∧
    matchIosVersion "17.6.2" "17.6.20" = false := by
  refine ⟨?_, ?_, ?_⟩ <;> decide

/-! ## `tasks/flash.py`: flash cleanup planning

`_get_flash_files` returns the netmiko result as a dict, list, or string;
device interaction is supplied as an environment mapping the command
string to that result (or to a transport error, since the helper
documents that it does not catch exceptions). -/

mutual
/-- Structural size of a value, used only to pre-compute a fuel bound for
the breadth-first search of `search_dict_for_key`. -/
def valSize : Value → Nat
  | .vList l => 1 + valListSize l
  | .vDict d => 1 + entsSize d
  | _ => 1

def valListSize : List Value → Nat
  | [] => 0
  | v :: rest => valSize v + valListSize rest

def entsSize : List (String × Value) → Nat
  | [] => 0
  | (_, v) :: rest => 1 + valSize v + entsSize rest
end

/-- `utils/helpers.py` `search_dict_for_key`: scan one dict level; either
the target key's value is found, or the sub-dicts are collected in
iteration order for the next BFS level. -/
def scanDict (target : String) : List (String × Value) → Sum Value (List (List (String × Value)))
  | [] => .inr []
  | (k, v) :: rest =>
    if k = target then .inl v
    else
      match v with
      | .vDict c =>
        (match scanDict target rest with
         | .inl fv => .inl fv
         | .inr cs => .inr (c :: cs))
      | _ => scanDict target rest

/-- The BFS queue loop of `search_dict_for_key`.  The fuel argument only
bounds the recursion depth; one unit is spent per dequeued dict, and the
number of dicts ever enqueued is bounded by the size of the original
value, so the initial fuel below never runs out. -/
def bfsDict (target : String) : Nat → List (List (String × Value)) → Option Value
  | 0, _ => none
  | _, [] => none
  | fuel + 1, d :: queue =>
    match scanDict target d with
    | .inl v => some v
    | .inr children => bfsDict target fuel (queue ++ children)

/-- `search_dict_for_key(dictionary, target_key)`. -/
def searchDictForKey (d : List (String × Value)) (target : String) : Option Value :=
  bfsDict target (entsSize d + 1) [d]

/-- Python `for name in files` over an arbitrary value, where each
iterated element is then used as a string (`re.match(regex, name)`): a
dict yields its keys, a list must hold strings, a string yields its
characters, anything non-iterable raises `TypeError`. -/
def iterStrings : Value → Except PyError (List String)
  | .vDict d => .ok (d.map (·.1))
  | .vList l =>
    l.mapM (fun v =>
      match v with
      | .vStr s => .ok s
      | _ => .error .typeError)
  | .vStr s => .ok (s.data.map (fun c => String.mk [c]))
  | .vSet s => .ok s
  | _ => .error .typeError

/-- `_parse_file_name(file)`: a dict with a string `"name"` field or a
plain string; everything else raises `TypeError`. -/
def parseFileName : Value → Except PyError String
  | .vDict d =>
    (match dataLookup d "name" with
     | some (.vStr s) => .ok s
     | _ => .error .typeError)
  | .vStr s => .ok s
  | _ => .error .typeError

/-- `_should_delete_image(name, primary_image, current_image, ios_version)`:
the three-way guard. -/
def shouldDeleteImage (name primary current iosVersion : String) : Bool :=
  name ≠ primary && name ≠ current && !matchIosVersion iosVersion name

/-- `re.match` against `_create_image_regex(primary_image)`, i.e.
`re.escape(primary_image[:5]) + ".+"` or `\S+.bin`, anchored at the
start of the name (a match need not consume the whole name). -/
def matchTailBin (cs : List Char) : Bool :=
  match cs with
  | c :: rest => c ≠ '\n' && (dropLit ['b', 'i', 'n'] rest).isSome
  | [] => false

/-- `\S+` followed by `.bin`, anchored at the current position. -/
def matchSBin : List Char → Bool
  | [] => false
  | c :: rest => !isPySpace c && (matchTailBin rest || matchSBin rest)

/-- The full image-regex match at position 0. -/
def matchImageRegex (primary5 name : List Char) : Bool :=
  (match dropLit primary5 name with
   | some (c :: _) => c ≠ '\n'
   | some [] => false
   | none => false) || matchSBin name

/-- Length of the leftmost match of the image regex at the current
position, with Python's alternative order and greediness: the first
alternative takes the escaped 5-character stem plus a maximal nonempty
run of non-newline characters; the second takes a maximal `\S+` run
backtracked until `.bin` fits. -/
def binBack (cs : List Char) : Nat → Option Nat
  | 0 => none
  | j + 1 =>
    if matchTailBin (cs.drop (j + 1)) then some (j + 1 + 4) else binBack cs j

def matchLenAt (primary5 cs : List Char) : Option Nat :=
  let second := binBack cs (cs.takeWhile (fun c => !isPySpace c)).length
  match dropLit primary5 cs with
  | some rest =>
    let run := (rest.takeWhile (fun c => c ≠ '\n')).length
    if run ≥ 1 then some (primary5.length + run) else second
  | none => second

/-- `compiled_regex.finditer(result)`: non-overlapping leftmost matches;
the fuel starts at the string length and strictly dominates the scan. -/
def finditerImages (primary5 : List Char) : Nat → List Char → List String
  | _, [] => []
  | 0, _ => []
  | fuel + 1, c :: rest =>
    match matchLenAt primary5 (c :: rest) with
    | some l =>
      String.mk ((c :: rest).take l) ::
        finditerImages primary5 fuel ((c :: rest).drop l)
    | none => finditerImages primary5 fuel rest

/-- `images_to_delete.add(name)` on the ordered model of a Python set. -/
def setAdd (s : List String) (x : String) : List String :=
  if s.contains x then s else s ++ [x]

/-- One filtered collection pass shared by the three result branches of
`_process_netmiko_result`: add a name when the pre-filter (the image
regex where the branch applies it) and `_should_delete_image` both
pass. -/
def addDeletable (primary current ios : String) (pre : String → Bool)
    (names : List String) (init : List String) : List String :=
  names.foldl
    (fun acc name =>
      if pre name && shouldDeleteImage name primary current ios then setAdd acc name
      else acc)
    init

/-- `_process_netmiko_result(result, compiled_regex, primary_image,
current_image, ios_version)`. -/
def processNetmikoResult (result : Value) (primary5 : List Char)
    (primary current ios : String) : Except PyError (List String) :=
  match result with
  | .vDict d =>
    (match searchDictForKey d "files" with
     | none => .error .typeError
     | some files =>
       (match iterStrings files with
        | .error e => .error e
        | .ok names =>
          .ok (addDeletable primary current ios
            (fun name => matchImageRegex primary5 name.data) names [])))
  | .vList l =>
    (match l.mapM parseFileName with
     | .error e => .error e
     | .ok names =>
       .ok (addDeletable primary current ios
         (fun name => matchImageRegex primary5 name.data) names []))
  | .vStr s =>
    .ok (addDeletable primary current ios (fun _ => true)
      (finditerImages primary5 s.data.length s.data) [])
  | _ => .error .typeError

/-- Python `str(value)` as used in `"flash{num}".format(num=num)`; stack
member ids are scalars in practice, container renderings are abbreviated
markers. -/
def pyStr : Value → String
  | .vStr s => s
  | .vInt n => toString n
  | .vBool b => if b then "True" else "False"
  | .vNone => "None"
  | .vList _ => "<list>"
  | .vDict _ => "<dict>"
  | .vSet _ => "<set>"

/-- `tasks/shared.py` `stack_flash_format`: `"flash{num}"` when the
device-type model contains `"2960"`, else `"flash-{num}"`.  A non-dict
`device_type` value makes `.get("model", "")` raise `AttributeError`;
a non-string model makes `"2960" in model` raise `TypeError`. -/
def stackFlashIs2960 (h : HostData) : Except PyError Bool :=
  match (dataLookup h "device_type").getD (.vDict []) with
  | .vDict d =>
    (match (dataLookup d "model").getD (.vStr "") with
     | .vStr m => .ok (containsSub "2960".data m.data)
     | _ => .error .typeError)
  | _ => .error .attributeError

/-- The per-member loop of `get_images_to_delete` for a stack: fetch each
member's flash listing and union the member's candidates into the set. -/
def memberLoop (h : HostData) (env : String → Except PyError Value)
    (primary5 : List Char) (primary current ios : String) :
    List Value → List String → Except PyError (List String)
  | [], acc => .ok acc
  | numV :: rest, acc => do
    let old ← stackFlashIs2960 h
    let flash := (if old then "flash" else "flash-") ++ pyStr numV
    let res ← env ("show " ++ flash ++ ":")
    let imgs ← processNetmikoResult res primary5 primary current ios
    memberLoop h env primary5 primary current ios rest (imgs.foldl setAdd acc)

/-- `get_images_to_delete(task)`.  The four-field lookup is unpacked into
five names, so a missing or invalid field raises `ValueError`; on success
the candidate set is computed per flash listing and stored under the raw
key `"images_to_delete"`. -/
def getImagesToDelete (h : HostData) (env : String → Except PyError Value) :
    Except PyError HostData :=
  match getRequiredHostVars h
      [DataFields.PRIMARY_IMAGE, DataFields.CURRENT_IMAGE,
       DataFields.IOS_VERSION, DataFields.STACK_INFO] with
  | (flag, [pv, cv, iv, sv]) =>
    if flag = false then .ok h
    else
      match pv, cv, iv, sv with
      | .vStr primary, .vStr current, .vStr ios, .vDict stackInfo =>
        (match dataLookup stackInfo "is_stack" with
         | none => .error .keyError
         | some isStack =>
           if pyTruthy isStack then
             match dataLookup stackInfo "stack_members" with
             | none => .error .keyError
             | some (.vList members) => do
               let s ← memberLoop h env (primary.data.take 5) primary current ios members []
               .ok (dataSet h "images_to_delete" (.vSet s))
             | some _ => .error .typeError
           else do
             let res ← env "show flash:"
             let s ← processNetmikoResult res (primary.data.take 5) primary current ios
             .ok (dataSet h "images_to_delete" (.vSet s)))
      | _, _, _, _ => .error .typeError
  | _ => .error .valueError

/-- `delete_unused_images(task)`: the required-vars sequence holds the
plain string `"images_to_delete"` instead of a `DataField`, and the
lookup loop reads `.name` on it.  The rest of the function (unpacking,
the re-check guard, and the delete commands it would send) is embedded
for completeness; the returned list is the trace of issued delete
commands. -/
def deleteUnusedImages (h : HostData) : Except PyError (HostData × List String) :=
  match getRequiredHostVarsRaw h
      [.str "images_to_delete", .field DataFields.STACK_INFO] with
  | .error e => .error e
  | .ok (flag, vals) =>
    match vals with
    | [imagesV, stackV] =>
      if flag = false then .ok (h, [])
      else
        match imagesV, stackV with
        | .vSet images, .vDict stackInfo =>
          (match dataLookup stackInfo "is_stack" with
           | none => .error .keyError
           | some isStack =>
             let guard2 := fun (image : String) =>
               !(pyEqStr ((dataLookup h "primary_image").getD .vNone) image) &&
               !(pyEqStr ((dataLookup h "current_image").getD .vNone) image)
             if pyTruthy isStack then
               match dataLookup stackInfo "stack_members" with
               | none => .error .keyError
               | some (.vList members) => do
                 let old ← stackFlashIs2960 h
                 let cmds := members.foldl (fun acc numV =>
                   acc ++ (images.filter guard2).map (fun image =>
                     "delete /recursive /force " ++
                       ((if old then "flash" else "flash-") ++ pyStr numV) ++ ":" ++ image)) []
                 .ok (h, cmds)
               | some _ => .error .typeError
             else
               .ok (h, (images.filter guard2).map
                 (fun image => "delete /recursive /force flash:" ++ image)))
        | _, _ => .error .typeError
    | _ => .error .valueError

theorem mem_setAdd {s : List String} {x y : String} (h : y ∈ setAdd s x) :
    y ∈ s ∨ y = x := by
  unfold setAdd at h
  split at h
  · exact Or.inl h
  · rcases List.mem_append.mp h with h1 | h1
    · exact Or.inl h1
    · exact Or.inr (List.mem_singleton.mp h1)

theorem shouldDelete_ne {x p c ios : String}
    (h : shouldDeleteImage x p c ios = true) : x ≠ p ∧ x ≠ c := by
  unfold shouldDeleteImage at h
  simp only [Bool.and_eq_true, decide_eq_true_eq] at h
  exact ⟨h.1.1, h.1.2⟩

theorem mem_addDeletable {p c ios : String} {pre : String → Bool}
    {names init : List String} {x : String}
    (h : x ∈ addDeletable p c ios pre names init) :
    x ∈ init ∨ shouldDeleteImage x p c ios = true := by
  induction names generalizing init with
  | nil => exact Or.inl h
  | cons n rest ih =>
    unfold addDeletable at h ih
    simp only [List.foldl_cons] at h
    rcases ih h with h1 | h1
    · split at h1
      · rcases mem_setAdd h1 with h2 | h2
        · exact Or.inl h2
        · subst h2
          rename_i hcond
          exact Or.inr ((Bool.and_eq_true _ _).mp hcond).2
      · exact Or.inl h1
    · exact Or.inr h1

theorem processNetmikoResult_excl {result : Value} {primary5 : List Char}
    {p c ios : String} {S : List String}
    (h : processNetmikoResult result primary5 p c ios = .ok S) :
    ∀ x ∈ S, x ≠ p ∧ x ≠ c := by
  intro x hx
  unfold processNetmikoResult at h
  repeat' split at h
  all_goals cases h
  all_goals
    rcases mem_addDeletable hx with h1 | h1
  all_goals first
    | cases h1
    | exact shouldDelete_ne h1

theorem mem_foldl_setAdd {imgs acc : List String} {x : String}
    (h : x ∈ imgs.foldl setAdd acc) : x ∈ acc ∨ x ∈ imgs := by
  induction imgs generalizing acc with
  | nil => exact Or.inl h
  | cons n rest ih =>
    simp only [List.foldl_cons] at h
    rcases ih h with h1 | h1
    · rcases mem_setAdd h1 with h2 | h2
      · exact Or.inl h2
      · exact Or.inr (h2 ▸ List.mem_cons_self n rest)
    · exact Or.inr (List.mem_cons_of_mem n h1)

theorem memberLoop_excl {h : HostData} {env : String → Except PyError Value}
    {primary5 : List Char} {p c ios : String} {members : List Value}
    {acc S : List String}
    (hml : memberLoop h env primary5 p c ios members acc = .ok S) :
    ∀ x ∈ S, x ∈ acc ∨ (x ≠ p ∧ x ≠ c) := by
  induction members generalizing acc with
  | nil =>
    intro x hx
    unfold memberLoop at hml
    cases hml
    exact Or.inl hx
  | cons numV rest ih =>
    intro x hx
    unfold memberLoop at hml
    simp only [bind, Except.bind] at hml
    split at hml
    · cases hml
    · split at hml
      · cases hml
      · split at hml
        · cases hml
        · rename_i imgs hpr
          rcases ih hml x hx with h1 | h1
          · rcases mem_foldl_setAdd h1 with h2 | h2
            · exact Or.inl h2
            · exact Or.inr (processNetmikoResult_excl hpr x h2)
          · exact Or.inr h1

/-- A value passing a `str`-typed field validation is a string. -/
theorem validate_str_shape {v : Value} {vs : List PyValidator}
    (h : schemaValidate (.prim .tStr vs) v = true) : ∃ s, v = .vStr s := by
  cases v <;>
    first
      | exact ⟨_, rfl⟩
      | (exfalso;
         exact absurd h (by simp [schemaValidate, schemaValidateF, schemaDepth, isInst]))

/-- A value passing a nested-class validation is a dict. -/
theorem validate_nested_shape {v : Value} {fs : List (String × DSchema)}
    (h : schemaValidate (.nested fs) v = true) : ∃ d, v = .vDict d := by
  cases v <;>
    first
      | exact ⟨_, rfl⟩
      | (exfalso;
         exact absurd h (by simp [schemaValidate, schemaValidateF, schemaDepth, isInst]))

/-- C1: whatever flash listings the device returns (dict, list, or string
form, per member or standalone), the set stored by `get_images_to_delete`
under `images_to_delete` never contains the host's `primary_image` value
or its `current_image` value. -/
theorem C1_get_images_to_delete_excludes
    (h h' : HostData) (env : String → Except PyError Value)
    (S : List String) (p c : String)
    (hp : dataLookup h "primary_image" = some (.vStr p))
    (hc : dataLookup h "current_image" = some (.vStr c))
    (hrun : getImagesToDelete h env = .ok h')
    (hS : dataLookup h' "images_to_delete" = some (.vSet S)) :
    p ∉ S ∧ c ∉ S := by
  unfold getImagesToDelete at hrun
  split at hrun
  case h_2 => cases hrun
  case h_1 flag pv cv iv sv heq =>
    have hflag : flag = true := by
      have h4 : (getRequiredHostVars h
          [DataFields.PRIMARY_IMAGE, DataFields.CURRENT_IMAGE,
           DataFields.IOS_VERSION, DataFields.STACK_INFO]).2.length =
          ([DataFields.PRIMARY_IMAGE, DataFields.CURRENT_IMAGE,
            DataFields.IOS_VERSION, DataFields.STACK_INFO] : List DField).length := by
        rw [heq]; rfl
      have := getRequiredHostVars_full_flag h _ h4
      rw [heq] at this
      exact this
    have hall := getRequiredHostVars_flag h
      [DataFields.PRIMARY_IMAGE, DataFields.CURRENT_IMAGE,
       DataFields.IOS_VERSION, DataFields.STACK_INFO]
    rw [heq, hflag] at hall
    replace hall := hall.symm
    simp only [List.all_cons, List.all_nil, Bool.and_eq_true, Bool.and_true] at hall
    obtain ⟨hA, hB, hC, hD⟩ := hall
    rw [show DataFields.PRIMARY_IMAGE.name = "primary_image" from rfl, hp] at hA
    rw [show DataFields.CURRENT_IMAGE.name = "current_image" from rfl, hc] at hB
    simp only [Option.map_some', Option.getD_some] at hA hB
    rcases hio : dataLookup h "ios_version" with - | vio
    · rw [show DataFields.IOS_VERSION.name = "ios_version" from rfl, hio] at hC
      simp at hC
    rw [show DataFields.IOS_VERSION.name = "ios_version" from rfl, hio] at hC
    simp only [Option.map_some', Option.getD_some] at hC
    rcases hst : dataLookup h "stack_info" with - | vst
    · rw [show DataFields.STACK_INFO.name = "stack_info" from rfl, hst] at hD
      simp at hD
    rw [show DataFields.STACK_INFO.name = "stack_info" from rfl, hst] at hD
    simp only [Option.map_some', Option.getD_some] at hD
    obtain ⟨sio, rfl⟩ := @validate_str_shape vio [.notEmptyString] hC
    obtain ⟨dst, rfl⟩ := @validate_nested_shape vst _ hD
    have heval : getRequiredHostVars h
        [DataFields.PRIMARY_IMAGE, DataFields.CURRENT_IMAGE,
         DataFields.IOS_VERSION, DataFields.STACK_INFO] =
        (true, [.vStr p, .vStr c, .vStr sio, .vDict dst]) := by
      simp only [getRequiredHostVars,
        show DataFields.PRIMARY_IMAGE.name = "primary_image" from rfl,
        show DataFields.CURRENT_IMAGE.name = "current_image" from rfl,
        show DataFields.IOS_VERSION.name = "ios_version" from rfl,
        show DataFields.STACK_INFO.name = "stack_info" from rfl,
        hp, hc, hio, hst, hA, hB, hC, hD, if_true]
    rw [heval] at heq
    obtain ⟨rfl, rfl, rfl, rfl, rfl⟩ :
        flag = true ∧ pv = Value.vStr p ∧ cv = Value.vStr c
          ∧ iv = Value.vStr sio ∧ sv = Value.vDict dst := by
      have h1 := congrArg Prod.fst heq
      have h2 := congrArg Prod.snd heq
      simp only at h1 h2
      simp only [List.cons.injEq, and_true] at h2
      exact ⟨h1.symm, h2.1.symm, h2.2.1.symm, h2.2.2.1.symm, h2.2.2.2.symm⟩
    rw [if_neg (by decide : ¬(true = false))] at hrun
    -- the four unpacked values now match the string/string/string/dict arm
    split at hrun
    case h_2 =>
      rename_i hcontra
      exact (hcontra p c sio dst rfl rfl rfl rfl).elim
    case h_1 =>
      rename_i primary current ios stackInfo e1 e2 e3 e4
      injection e1 with e1
      injection e2 with e2
      injection e3 with e3
      injection e4 with e4
      subst e1; subst e2; subst e3; subst e4
      split at hrun
      · cases hrun
      rename_i isStack hisStack
      split at hrun
      -- stack branch
      · split at hrun
        · cases hrun
        case h_2 members hmem =>
          simp only [bind, Except.bind] at hrun
          split at hrun
          · cases hrun
          rename_i s hml
          cases hrun
          rw [show dataLookup (dataSet h "images_to_delete" (.vSet s))
              "images_to_delete" = some (.vSet s) from rfl] at hS
          obtain rfl : s = S := by simpa using hS
          have hexcl := memberLoop_excl hml
          constructor
          · intro hmemS
            rcases hexcl p hmemS with h1 | h1
            · cases h1
            · exact h1.1 rfl
          · intro hmemS
            rcases hexcl c hmemS with h1 | h1
            · cases h1
            · exact h1.2 rfl
        case h_3 => cases hrun
      -- standalone branch
      · simp only [bind, Except.bind] at hrun
        split at hrun
        · cases hrun
        split at hrun
        · cases hrun
        rename_i s hpr
        cases hrun
        rw [show dataLookup (dataSet h "images_to_delete" (.vSet s))
            "images_to_delete" = some (.vSet s) from rfl] at hS
        obtain rfl : s = S := by simpa using hS
        have hexcl := processNetmikoResult_excl hpr
        constructor
        · intro hmemS
          exact (hexcl p hmemS).1 rfl
        · intro hmemS
          exact (hexcl c hmemS).2 rfl

/-- A sample standalone host for exercising the cleanup planner. -/
def sampleHost : HostData :=
  [ ("primary_image", .vStr "cat9k_iosxe.17.06.03.SPA.bin")
  , ("current_image", .vStr "cat9k_iosxe.17.03.05.SPA.bin")
  , ("ios_version", .vStr "17.3.5")
  , ("stack_info", .vDict [("is_stack", .vBool false)]) ]

/-- A sample flash listing in genie dict form: one stale image plus the
primary image itself. -/
def sampleFlashEnv : String → Except PyError Value := fun _ =>
  .ok (.vDict [("files", .vDict
    [ ("old1.bin", .vNone)
    , ("cat9k_iosxe.17.06.03.SPA.bin", .vNone)
    , ("cat9k_iosxe.17.03.05.SPA.bin", .vNone) ])])

/-- C1 witness: on the sample host the planner stores exactly
`{"old1.bin"}`, which contains neither the primary nor the current
image. -/
theorem C1_get_images_to_delete_excludes_witness :
    "cat9k_iosxe.17.06.03.SPA.bin" ∉ (["old1.bin"] : List String) ∧
    "cat9k_iosxe.17.03.05.SPA.bin" ∉ (["old1.bin"] : List String) :=
  C1_get_images_to_delete_excludes sampleHost
    (dataSet sampleHost "images_to_delete" (.vSet ["old1.bin"]))
    sampleFlashEnv ["old1.bin"]
    "cat9k_iosxe.17.06.03.SPA.bin" "cat9k_iosxe.17.03.05.SPA.bin"
    rfl rfl (by rfl) rfl

/-- C9: every invocation of `delete_unused_images` raises
`AttributeError` inside `get_required_host_vars` — the required-vars
sequence holds the plain string `"images_to_delete"`, whose `.name`
attribute access fails — before any delete command is issued, so the
deletion-execution step can never perform a deletion. -/
theorem C9_delete_unused_images_raises (h : HostData) :
    deleteUnusedImages h = .error .attributeError := rfl

/-! ## `tasks/device_info.py`: `get_stack_info`

The `show switch` genie output arrives through the environment as either
a string (unsupported platforms) or the parsed dict
`output["switch"]["stack"]`, keyed by member id with per-member `state`
and `role` fields.  The caller-supplied filter list defaults to
`[is_router]`, which matches hosts whose name contains `"cir"`. -/

/-- The dict comprehension filtering out members whose `state` equals
`"provisioned"`; a member without a `state` key raises `KeyError`, a
non-dict member raises `TypeError`. -/
def filterActive : List (String × Value) → Except PyError (List (String × Value))
  | [] => .ok []
  | (k, v) :: rest =>
    match v with
    | .vDict d =>
      (match dataLookup d "state" with
       | none => .error .keyError
       | some st =>
         match filterActive rest with
         | .error e => .error e
         | .ok actives =>
           if pyEqStr st "provisioned" then .ok actives else .ok ((k, v) :: actives))
    | _ => .error .typeError

/-- The master-selection loop: the first active member whose `role` is
`"master"` or `"active"`; the loop breaks there, and `master` stays
`None` when no member qualifies. -/
def firstMaster : List (String × Value) → Except PyError (Option String)
  | [] => .ok none
  | (num, v) :: rest =>
    match v with
    | .vDict d =>
      (match dataLookup d "role" with
       | none => .error .keyError
       | some r =>
         if pyEqStr r "master" || pyEqStr r "active" then .ok (some num)
         else firstMaster rest)
    | _ => .error .typeError

/-- The `stack_info` value stored for a non-stack device. -/
def stackInfoFalse : Value :=
  .vDict [("is_stack", .vBool false), ("stack_members", .vNone), ("stack_master", .vNone)]

/-- `get_stack_info(task, force, filters=[is_router])`. -/
def getStackInfo (name : String) (h : HostData) (force : Bool)
    (env : Except PyError Value) : Except PyError HostData :=
  if !force && (dataLookup h "stack_info").isSome then .ok h
  else if containsSub ['c', 'i', 'r'] name.data then
    .ok (dataSet h "stack_info" stackInfoFalse)
  else
    match env with
    | .error e => .error e
    | .ok (.vStr s) =>
      if containsSub "invalid input".data (s.data.map asciiLower) || pyStrip s = "" then
        .ok (dataSet h "stack_info" stackInfoFalse)
      else
        .ok h  -- unsupported string output is logged; nothing is stored
    | .ok (.vDict od) =>
      (match dataLookup od "switch" with
       | some (.vDict swd) =>
         (match dataLookup swd "stack" with
          | some (.vDict entries) => do
            let active ← filterActive entries
            if active.length ≤ 1 then
              .ok (dataSet h "stack_info" stackInfoFalse)
            else do
              let master ← firstMaster active
              .ok (dataSet h "stack_info" (.vDict
                [ ("is_stack", .vBool true)
                , ("stack_members", .vList (active.map (fun e => .vStr e.1)))
                , ("stack_master",
                   match master with
                   | some m => .vStr m
                   | none => .vNone) ]))
          | some _ => .error .typeError
          | none => .error .keyError)
       | some _ => .error .typeError
       | none => .error .keyError)
    | .ok _ => .error .typeError

/-- A `show switch` genie output built from (member id, state, role)
triples. -/
def mkStackOutput (ms : List (String × String × String)) : Value :=
  .vDict [("switch", .vDict [("stack", .vDict
    (ms.map (fun m => (m.1, .vDict [("state", .vStr m.2.1), ("role", .vStr m.2.2)]))))])]

/-- The claim's resolution algorithm, written from its words: drop
provisioned members; with at most one active member left the device is
not a stack; otherwise it is, the members are the active ids, and the
master is the first active member whose role is `"master"` or
`"active"`. -/
def stackResolveSpec (ms : List (String × String × String)) : Value :=
  if (ms.filter (fun m => m.2.1 ≠ "provisioned")).length ≤ 1 then stackInfoFalse
  else
    .vDict
      [ ("is_stack", .vBool true)
      , ("stack_members",
         .vList ((ms.filter (fun m => m.2.1 ≠ "provisioned")).map (fun m => .vStr m.1)))
      , ("stack_master",
         match (ms.filter (fun m => m.2.1 ≠ "provisioned")).find?
             (fun m => m.2.2 = "master" || m.2.2 = "active") with
         | some m => .vStr m.1
         | none => .vNone) ]

theorem filterActive_mk (ms : List (String × String × String)) :
    filterActive (ms.map (fun m => (m.1, .vDict [("state", .vStr m.2.1), ("role", .vStr m.2.2)]))) =
      .ok ((ms.filter (fun m => m.2.1 ≠ "provisioned")).map
        (fun m => (m.1, .vDict [("state", .vStr m.2.1), ("role", .vStr m.2.2)]))) := by
  induction ms with
  | nil => rfl
  | cons m rest ih =>
    simp only [List.map_cons, filterActive, dataLookup, if_pos rfl, ih, List.filter_cons]
    by_cases hprov : m.2.1 = "provisioned"
    · simp [hprov, pyEqStr]
    · simp [hprov, pyEqStr]

theorem firstMaster_mk (ms : List (String × String × String)) :
    firstMaster (ms.map (fun m => (m.1, .vDict [("state", .vStr m.2.1), ("role", .vStr m.2.2)]))) =
      .ok ((ms.find? (fun m => m.2.2 = "master" || m.2.2 = "active")).map (·.1)) := by
  induction ms with
  | nil => rfl
  | cons m rest ih =>
    simp only [List.map_cons, firstMaster, List.find?_cons]
    cases hrole : (decide (m.2.2 = "master") || decide (m.2.2 = "active")) with
    | true => simp [dataLookup, pyEqStr, hrole]
    | false => simp [dataLookup, pyEqStr, hrole, ih]

/-- C4: with `force` set and a non-router host name, `get_stack_info` on
a parsed members table stores exactly the claim's resolution: provisioned
members are dropped; at most one active member left means
`is_stack=false`; otherwise `is_stack=true`, `members` is the active ids
and `master` the first active member whose role is `"master"` or
`"active"`. -/
theorem C4_get_stack_info (name : String) (h : HostData)
    (ms : List (String × String × String))
    (hname : containsSub ['c', 'i', 'r'] name.data = false) :
    getStackInfo name h true (.ok (mkStackOutput ms)) =
      .ok (dataSet h "stack_info" (stackResolveSpec ms)) := by
  have hcore : getStackInfo name h true (.ok (mkStackOutput ms)) =
      (do
        let active ← filterActive (ms.map
          (fun m => (m.1, .vDict [("state", .vStr m.2.1), ("role", .vStr m.2.2)])))
        if active.length ≤ 1 then .ok (dataSet h "stack_info" stackInfoFalse)
        else do
          let master ← firstMaster active
          .ok (dataSet h "stack_info" (.vDict
            [ ("is_stack", .vBool true)
            , ("stack_members", .vList (active.map (fun e => .vStr e.1)))
            , ("stack_master",
               match master with
               | some m => .vStr m
               | none => .vNone) ]))) := by
    unfold getStackInfo mkStackOutput
    rw [if_neg (by simp), if_neg (by simp [hname])]
    rfl
  rw [hcore, filterActive_mk]
  simp only [bind, Except.bind]
  unfold stackResolveSpec
  simp only [List.length_map]
  by_cases hlen : (ms.filter (fun m => m.2.1 ≠ "provisioned")).length ≤ 1
  · rw [if_pos hlen, if_pos hlen]
  · rw [if_neg hlen, if_neg hlen, firstMaster_mk]
    cases hfind : (ms.filter (fun m => m.2.1 ≠ "provisioned")).find?
        (fun m => m.2.2 = "master" || m.2.2 = "active") with
    | none => simp [hfind, List.map_map, Function.comp_def]
    | some m => simp [hfind, List.map_map, Function.comp_def]

/-- C4 witness: two active members plus one provisioned member with roles
master/member/provisioned resolve to a stack whose members exclude the
provisioned unit and whose master is the `"master"`-role member. -/
theorem C4_get_stack_info_witness :
    getStackInfo "sw-floor2" [] true
        (.ok (mkStackOutput
          [("1", "ready", "master"), ("2", "ready", "member"),
           ("3", "provisioned", "provisioned")])) =
      .ok (dataSet [] "stack_info" (.vDict
        [ ("is_stack", .vBool true)
        , ("stack_members", .vList [.vStr "1", .vStr "2"])
        , ("stack_master", .vStr "1") ])) :=
  (C4_get_stack_info "sw-floor2" []
    [("1", "ready", "master"), ("2", "ready", "member"),
     ("3", "provisioned", "provisioned")] (by decide)).trans (by rfl)

/-! ## `tasks/configure.py` `set_reload` and `tasks/verify.py` `verify_reload`

Each function returns the trace of device command strings it issued
together with the resulting host data (or the Python error that escaped).
The netmiko call outcome is an environment argument: an optional
transport error plus the result text. -/

/-- `set_reload(task, reload_time, force)`. -/
def setReload (h : HostData) (reloadTime : String) (force : Bool)
    (envRaise : Option PyError) : List String × Except PyError HostData :=
  if !force && optTruthy (dataLookup h "is_at_target") then ([], .ok h)
  else if reloadTime = "" then ([], .ok h)
  else if !force
      && (match dataLookup h "reload_time" with
          | some v => pyEqStr v reloadTime
          | none => false)
      && optTruthy (dataLookup h "reload_set") then ([], .ok h)
  else
    let command := "reload at " ++ reloadTime ++ "\nyes\n\nshow reload\n"
    match envRaise with
    | some e => ([command], .error e)
    | none => ([command], .ok (dataSet h "reload_time" (.vStr reloadTime)))

/-- `verify_reload(task, force)`.  Both `get_required_host_vars` results
are unpacked into two names, so a short value list raises `ValueError`.
When both lookups succeed the validated `reload_time` value is an `int`
(or a `bool`, which Python's `isinstance(·, int)` also accepts), and the
later `reload_time.split()` call on it raises `AttributeError`. -/
def verifyReload (h : HostData) (force : Bool) (envRaise : Option PyError)
    (envOut : String) : List String × Except PyError HostData :=
  if !force && optTruthy (dataLookup h "reload_set") then ([], .ok h)
  else
    match getRequiredHostVars h [DataFields.IS_AT_TARGET] with
    | (flag, [v]) =>
      if flag = false then ([], .ok h)
      else if pyTruthy v then ([], .ok h)
      else
        match getRequiredHostVars h [DataFields.RELOAD_TIME] with
        | (flag2, [rv]) =>
          if flag2 = false then ([], .ok h)
          else
            (match envRaise with
             | some e => (["show reload"], .error e)
             | none =>
               if containsSub "no reload".data (envOut.data.map asciiLower) then
                 (["show reload"], .ok (dataSet h "reload_set" (.vBool false)))
               else
                 -- `for part in reload_time.split()` on the int value
                 (["show reload"], .error (match rv with
                   | .vStr _ => .typeError
                   | _ => .attributeError)))
        | _ => ([], .error .valueError)
    | _ => ([], .error .valueError)

/-- C7 counterexample: on a host with empty data, `set_reload` with
reload time `"14:30 05 jan"` completes and stores `reload_time`, but
`reload_set` is absent afterwards — not `true` as the claim states. -/
theorem C7_set_reload_cex :
    (setReload [] "14:30 05 jan" true none).2 =
      .ok [("reload_time", .vStr "14:30 05 jan")] ∧
    dataLookup [("reload_time", .vStr "14:30 05 jan")] "reload_set" = none :=
  ⟨rfl, rfl⟩

/-- C7 (amended): after `set_reload` runs to completion with a nonempty
reload time and the schedule command succeeds, `reload_time` equals the
supplied value, but `set_reload` does not write `reload_set` at all: the
flag keeps whatever value it had before the call (only
`verify_reload` / `check_no_reload` / `reload` write it). -/
theorem C7_set_reload_amended (h : HostData) (rt : String) (hrt : rt ≠ "") :
    (setReload h rt true none).1 = ["reload at " ++ rt ++ "\nyes\n\nshow reload\n"] ∧
    (setReload h rt true none).2 = .ok (dataSet h "reload_time" (.vStr rt)) ∧
    dataLookup (dataSet h "reload_time" (.vStr rt)) "reload_time" = some (.vStr rt) ∧
    dataLookup (dataSet h "reload_time" (.vStr rt)) "reload_set" =
      dataLookup h "reload_set" := by
  have hrun : setReload h rt true none =
      (["reload at " ++ rt ++ "\nyes\n\nshow reload\n"],
       .ok (dataSet h "reload_time" (.vStr rt))) := by
    unfold setReload
    rw [if_neg (by simp), if_neg hrt, if_neg (by simp)]
  exact ⟨by rw [hrun], by rw [hrun], by simp [dataSet, dataLookup],
    by simp [dataSet, dataLookup]⟩

/-- C7 witness: concrete instantiation at an empty host and the reload
time `"14:30 05 jan"`. -/
theorem C7_set_reload_amended_witness :
    (setReload [] "14:30 05 jan" true none).1 =
        ["reload at 14:30 05 jan\nyes\n\nshow reload\n"] ∧
    (setReload [] "14:30 05 jan" true none).2 =
        .ok (dataSet [] "reload_time" (.vStr "14:30 05 jan")) ∧
    dataLookup (dataSet [] "reload_time" (.vStr "14:30 05 jan")) "reload_time" =
        some (.vStr "14:30 05 jan") ∧
    dataLookup (dataSet [] "reload_time" (.vStr "14:30 05 jan")) "reload_set" =
        dataLookup [] "reload_set" :=
  C7_set_reload_amended [] "14:30 05 jan" (by decide)

/-- C10 counterexample: with `reload_time` stored by `set_reload` as a
string, the `get_required_host_vars` lookup in `verify_reload` does
return the success flag `False`, but the step does not no-op — the
two-name unpacking of the short list raises `ValueError` (still before
any device query). -/
theorem C10_verify_reload_cex :
    (setReload [("is_at_target", .vBool false)] "14:30 05 jan" true none).2 =
      .ok [("reload_time", .vStr "14:30 05 jan"), ("is_at_target", .vBool false)] ∧
    (getRequiredHostVars
        [("reload_time", .vStr "14:30 05 jan"), ("is_at_target", .vBool false)]
        [DataFields.RELOAD_TIME]).1 = false ∧
    verifyReload [("reload_time", .vStr "14:30 05 jan"), ("is_at_target", .vBool false)]
        true none "reload scheduled" = ([], .error .valueError) :=
  ⟨rfl, rfl, rfl⟩

/-- C10 (amended): the registry declares `reload_time` as a positive
integer while `set_reload` stores the caller's string, so for every host
whose `reload_time` is a string, the required-vars lookup returns success
flag `False`; because the invalid value is omitted from the returned
list, `verify_reload`'s two-name unpacking then raises `ValueError`, so
the scheduled-reload verification step always aborts — by exception, not
a clean no-op — before issuing any device query. -/
theorem C10_verify_reload_amended (h : HostData) (force : Bool)
    (envRaise : Option PyError) (envOut : String) (s : String)
    (hrt : dataLookup h "reload_time" = some (.vStr s)) :
    (getRequiredHostVars h [DataFields.RELOAD_TIME]).1 = false ∧
    (verifyReload h force envRaise envOut).1 = [] := by
  have hlook : getRequiredHostVars h [DataFields.RELOAD_TIME] = (false, []) := by
    simp [getRequiredHostVars,
      show DataFields.RELOAD_TIME.name = "reload_time" from rfl, hrt,
      DField.validate, schemaValidate, schemaValidateF, schemaDepth,
      DataFields.RELOAD_TIME, isInst]
  refine ⟨by rw [hlook], ?_⟩
  unfold verifyReload
  split
  · rfl
  · split
    · rename_i flag v heq1
      split
      · rfl
      · split
        · rfl
        · rw [hlook]
    · rfl

/-- C10 witness: concrete instantiation on a host whose `reload_time` was
written by `set_reload`. -/
theorem C10_verify_reload_amended_witness :
    (getRequiredHostVars [("reload_time", .vStr "14:30 05 jan")]
        [DataFields.RELOAD_TIME]).1 = false ∧
    (verifyReload [("reload_time", .vStr "14:30 05 jan")] true none "show reload").1 = [] :=
  C10_verify_reload_amended [("reload_time", .vStr "14:30 05 jan")] true none
    "show reload" "14:30 05 jan" rfl

/-! ## `tasks/configure.py` boot-statement setters and their verifiers

The netmiko calls are environment outcomes: the config push and the
`netmiko_save_config` call each either succeed or raise, and the
follow-up `show boot system` / `show bootvar` read returns a text result
(or raises).  The switch verifier's `re.search(f"flash:{primary_image}",
...)` patterns are literal except that an unescaped `.` in the image name
matches any non-newline character; `regexSearchLit` implements exactly
that.  The router verifier's two `BOOT_STATEMENT_PATTERNS` regexes are
abstracted as an environment boolean (the branch they guard is
unreachable for schema-valid hosts, and no claim depends on their
semantics). -/

/-- Match one pattern character (`.` is a wildcard for any non-newline
character, everything else is literal) and continue. -/
def dropPat : List Char → List Char → Option (List Char)
  | [], cs => some cs
  | _ :: _, [] => none
  | pc :: ps, c :: cs =>
    if (if pc = '.' then c ≠ '\n' else pc = c) then dropPat ps cs else none

/-- `re.search` of a dot-wildcard literal pattern. -/
def regexSearchLit (pat : List Char) : List Char → Bool
  | [] => (dropPat pat []).isSome
  | c :: rest => (dropPat pat (c :: rest)).isSome || regexSearchLit pat rest

/-- Device outcomes for one boot-statement setter run. -/
structure BootEnv where
  pushRaise : Option PyError
  saveRaise : Option PyError
  showRaise : Option PyError
  showOut : String

/-- `tasks/verify.py` `verify_switch_boot_statement(task,
target_check_only)`.  Returns the issued commands and `True`/`False`/
`None` as the source does, or the escaping Python error. -/
def verifySwitchBootStatement (h : HostData) (targetCheckOnly : Bool)
    (envRaise : Option PyError) (envOut : String) :
    List String × Except PyError (Option Bool) :=
  match getRequiredHostVars h [DataFields.PRIMARY_IMAGE, DataFields.PLATFORM] with
  | (flag, [pv, _platv]) =>
    if flag = false then ([], .ok none)
    else if !targetCheckOnly && (dataLookup h "current_image").isNone then
      ([], .ok none)
    else
      (match envRaise with
       | some e => (["show boot system"], .error e)
       | none =>
         -- `if not result:` cannot fire — `task.run` returns a nonempty
         -- MultiResult
         if regexSearchLit ("flash:" ++ pyStr pv).data envOut.data then
           (["show boot system"], .ok (some true))
         else if targetCheckOnly then
           -- the second pattern's f-string reads the never-assigned
           -- walrus variable `current_image`
           (["show boot system"], .error .nameError)
         else if regexSearchLit
             ("flash:" ++ pyStr pv ++ ";flash:"
               ++ pyStr ((dataLookup h "current_image").getD .vNone)).data
             envOut.data then
           (["show boot system"], .ok (some true))
         else
           (["show boot system"], .ok (some false)))
  | _ => ([], .error .valueError)

/-- `tasks/verify.py` `verify_boot_statement(task)`: router variant.  It
returns `True` on a pattern match and otherwise falls off the end
returning `None` — it has no `False` return at all; and `platform` is a
validated nested dict, so `platform.lower()` raises `AttributeError`
whenever the lookup succeeds. -/
def verifyBootStatement (h : HostData) (envRaise : Option PyError)
    (_envOut : String) (patternMatched : Bool) :
    List String × Except PyError (Option Bool) :=
  match getRequiredHostVars h
      [DataFields.PRIMARY_IMAGE, DataFields.CURRENT_IMAGE, DataFields.PLATFORM] with
  | (flag, [_pv, _cv, platv]) =>
    if flag = false then ([], .ok none)
    else
      match platv with
      | .vStr ps =>
        if ¬(String.mk (ps.data.map asciiLower) = "ios")
            ∧ ¬(String.mk (ps.data.map asciiLower) = "ios-xe") then ([], .ok none)
        else
          (match envRaise with
           | some e => (["show bootvar"], .error e)
           | none =>
             if patternMatched then (["show bootvar"], .ok (some true))
             else (["show bootvar"], .ok none))
      | _ => ([], .error .attributeError)
  | _ => ([], .error .valueError)

/-- `set_switch_boot_statement(task, force)`. -/
def setSwitchBootStatement (h : HostData) (force : Bool) (env : BootEnv) :
    List String × Except PyError HostData :=
  match getRequiredHostVars h
      [DataFields.PRIMARY_IMAGE, DataFields.CURRENT_IMAGE, DataFields.STACK_INFO] with
  | (flag, [pv, cv, sv]) =>
    if flag = false then ([], .ok h)
    else if !force && optTruthy (dataLookup h "boot_statement_set") then ([], .ok h)
    else
      match sv with
      | .vDict stackInfo =>
        (match dataLookup stackInfo "is_stack" with
         | none => ([], .error .keyError)
         | some isStack =>
           let flash := "flash:" ++ pyStr pv
             ++ (if pyTruthy cv then ";flash:" ++ pyStr cv else "")
           let commands :=
             if pyTruthy isStack then
               ["no boot system switch all", "boot system switch all " ++ flash]
             else ["no boot system", "boot system " ++ flash]
           match env.pushRaise with
           | some e => (commands, .error e)
           | none =>
             match env.saveRaise with
             | some _ => (commands, .ok h)  -- caught: logged, step aborts
             | none =>
               match verifySwitchBootStatement h false env.showRaise env.showOut with
               | (tr, .error e) => (commands ++ tr, .error e)
               | (tr, .ok bv) =>
                 if bv = some false then (commands ++ tr, .ok h)
                 else (commands ++ tr, .ok (dataSet h "boot_statement_set" (.vBool true))))
      | _ => ([], .error .typeError)
  | _ => ([], .error .valueError)

/-- `set_router_boot_statement(task)`. -/
def setRouterBootStatement (h : HostData) (env : BootEnv) (patternMatched : Bool) :
    List String × Except PyError HostData :=
  match getRequiredHostVars h [DataFields.PRIMARY_IMAGE, DataFields.CURRENT_IMAGE] with
  | (flag, [pv, cv]) =>
    if flag = false then ([], .ok h)
    else if optTruthy (dataLookup h "boot_statement_set") then ([], .ok h)
    else
      let commands :=
        ["no boot system", "boot system bootflash:" ++ pyStr pv,
         "boot system bootflash:" ++ pyStr cv]
      match env.pushRaise with
      | some e => (commands, .error e)
      | none =>
        match env.saveRaise with
        | some _ => (commands, .ok h)
        | none =>
          match verifyBootStatement h env.showRaise env.showOut patternMatched with
          | (tr, .error e) => (commands ++ tr, .error e)
          | (tr, .ok bv) =>
            if bv = some false then (commands ++ tr, .ok h)
            else (commands ++ tr, .ok (dataSet h "boot_statement_set" (.vBool true)))
  | _ => ([], .error .valueError)

/-- Peeling one field off a successful `get_required_host_vars` call:
the field was present and valid, contributed the head value, and the
remaining fields were likewise all present and valid. -/
theorem getRequired_cons_decomp (h : HostData) (f : DField) (rest : List DField)
    (flag : Bool) (vals : List Value)
    (heq : getRequiredHostVars h (f :: rest) = (flag, vals))
    (hflag : flag = true) :
    ∃ v tl, dataLookup h f.name = some v ∧ f.validate v = true
      ∧ vals = v :: tl ∧ getRequiredHostVars h rest = (true, tl) := by
  subst hflag
  rcases hr : getRequiredHostVars h rest with ⟨fr, vr⟩
  unfold getRequiredHostVars at heq
  rw [hr] at heq
  rcases hl : dataLookup h f.name with - | v <;> rw [hl] at heq <;> dsimp only at heq
  · simp at heq
  · by_cases hv : f.validate v = true
    · rw [if_pos hv] at heq
      rw [Prod.ext_iff] at heq
      simp only at heq
      obtain ⟨h1, h2⟩ := heq
      subst h1
      subst h2
      exact ⟨v, vr, rfl, hv, rfl, rfl⟩
    · rw [if_neg hv] at heq
      simp at heq


/-- With the current image present in host data, the switch verifier
either raises or answers `True`/`False` — it cannot answer `None`. -/
theorem verifySwitch_ok_cases (h : HostData) (envR : Option PyError) (envO : String)
    (tr : List String) (bv : Option Bool)
    (hcur : (dataLookup h "current_image").isNone = false)
    (hok : verifySwitchBootStatement h false envR envO = (tr, .ok bv)) :
    bv = some true ∨ bv = some false := by
  unfold verifySwitchBootStatement at hok
  split at hok
  case h_2 => simp at hok
  case h_1 flag pv platv heq =>
    have hflag : flag = true := by
      have h2 : (getRequiredHostVars h
          [DataFields.PRIMARY_IMAGE, DataFields.PLATFORM]).2.length =
          ([DataFields.PRIMARY_IMAGE, DataFields.PLATFORM] : List DField).length := by
        rw [heq]; rfl
      have := getRequiredHostVars_full_flag h _ h2
      rw [heq] at this
      exact this
    rw [hflag, if_neg (by decide : ¬(true = false)),
      if_neg (by simp [hcur] : ¬((!false && (dataLookup h "current_image").isNone) = true))]
      at hok
    split at hok
    · simp at hok
    · split at hok
      · injection hok with h1 h2
        injection h2 with h3
        exact Or.inl h3.symm
      · split at hok
        · rename_i hc
          exact absurd hc (by decide)
        · split at hok
          · injection hok with h1 h2
            injection h2 with h3
            exact Or.inl h3.symm
          · injection hok with h1 h2
            injection h2 with h3
            exact Or.inr h3.symm

/-- The router verifier never returns normally on a host that passes its
lookup or fails it: the successful three-field lookup forces `platform`
to a validated dict, on which `platform.lower()` raises
`AttributeError`; a failed lookup raises `ValueError` at the
unpacking. -/
theorem verifyBoot_never_ok (h : HostData) (envR : Option PyError) (envO : String)
    (pm : Bool) (tr : List String) (bv : Option Bool) :
    verifyBootStatement h envR envO pm ≠ (tr, .ok bv) := by
  intro hok
  unfold verifyBootStatement at hok
  split at hok
  case h_2 => simp at hok
  case h_1 flag pv cv platv heq =>
    have hflag : flag = true := by
      have h2 : (getRequiredHostVars h
          [DataFields.PRIMARY_IMAGE, DataFields.CURRENT_IMAGE,
           DataFields.PLATFORM]).2.length =
          ([DataFields.PRIMARY_IMAGE, DataFields.CURRENT_IMAGE,
            DataFields.PLATFORM] : List DField).length := by
        rw [heq]; rfl
      have := getRequiredHostVars_full_flag h _ h2
      rw [heq] at this
      exact this
    obtain ⟨v1, tl1, -, -, hv1, hr1⟩ :=
      getRequired_cons_decomp h _ _ _ _ heq hflag
    obtain ⟨v2, tl2, -, -, hv2, hr2⟩ :=
      getRequired_cons_decomp h _ _ _ _ hr1 rfl
    obtain ⟨v3, tl3, -, hval3, hv3, -⟩ :=
      getRequired_cons_decomp h _ _ _ _ hr2 rfl
    have hplat : platv = v3 := by
      rw [hv2, hv3] at hv1
      simp only [List.cons.injEq] at hv1
      exact hv1.2.2.1
    obtain ⟨pd, hpd⟩ := @validate_nested_shape
      v3
        [ ("id", .prim .tInt [.positiveInteger])
        , ("name", .prim .tStr [.notEmptyString])
        , ("slug", .prim .tStr [.notEmptyString])
        , ("display", .prim .tStr [.notEmptyString])
        , ("description", .prim .tStr [])
        , ("url", .prim .tStr [.notEmptyString]) ] hval3
    rw [hflag, if_neg (by decide : ¬(true = false))] at hok
    rw [hplat, hpd] at hok
    simp at hok

/-- A successful `set_switch_boot_statement` run either left the host
data untouched (a skip or failure path) or set `boot_statement_set` to
`True` — and the latter happened only with the save succeeding and the
verification answering `True`. -/
theorem setSwitch_ok_cases (h : HostData) (force : Bool) (env : BootEnv)
    (h' : HostData)
    (hok : (setSwitchBootStatement h force env).2 = .ok h') :
    h' = h ∨ (h' = dataSet h "boot_statement_set" (.vBool true)
      ∧ env.saveRaise = none
      ∧ (verifySwitchBootStatement h false env.showRaise env.showOut).2 =
          .ok (some true)) := by
  unfold setSwitchBootStatement at hok
  split at hok
  case h_2 => simp at hok
  case h_1 flag pv cv sv heq =>
    have hflag : flag = true := by
      have h2 : (getRequiredHostVars h
          [DataFields.PRIMARY_IMAGE, DataFields.CURRENT_IMAGE,
           DataFields.STACK_INFO]).2.length =
          ([DataFields.PRIMARY_IMAGE, DataFields.CURRENT_IMAGE,
            DataFields.STACK_INFO] : List DField).length := by
        rw [heq]; rfl
      have := getRequiredHostVars_full_flag h _ h2
      rw [heq] at this
      exact this
    obtain ⟨v1, tl1, -, -, hv1, hr1⟩ :=
      getRequired_cons_decomp h _ _ _ _ heq hflag
    obtain ⟨v2, tl2, hlook2, hval2, hv2, hr2⟩ :=
      getRequired_cons_decomp h _ _ _ _ hr1 rfl
    have hcur : (dataLookup h "current_image").isNone = false := by
      rw [show DataFields.CURRENT_IMAGE.name = "current_image" from rfl] at hlook2
      rw [hlook2]
      rfl
    rw [hflag, if_neg (by decide : ¬(true = false))] at hok
    repeat' split at hok
    all_goals
      first
        | exact Or.inl (Except.ok.inj hok).symm
        | exact Except.noConfusion hok
        | (rename_i hsave x tr bv hverify hbv
           rcases verifySwitch_ok_cases h env.showRaise env.showOut tr bv hcur
               hverify with hb | hb
           · exact Or.inr ⟨(Except.ok.inj hok).symm, hsave, by rw [hverify, hb]⟩
           · exact absurd hb hbv)

/-- A successful `set_router_boot_statement` run never changes the host
data: its verifier always raises before returning, so the flag-setting
line is unreachable. -/
theorem setRouter_ok_eq (h : HostData) (env : BootEnv) (pm : Bool)
    (h' : HostData)
    (hok : (setRouterBootStatement h env pm).2 = .ok h') : h' = h := by
  unfold setRouterBootStatement at hok
  repeat' split at hok
  all_goals
    first
      | exact (Except.ok.inj hok).symm
      | exact Except.noConfusion hok
      | (rename_i x tr bv hverify hbv
         exact absurd hverify (verifyBoot_never_ok h env.showRaise env.showOut pm tr bv))

/-- C5: the boot-statement setters mark `boot_statement_set=True` only
when the configuration save succeeds and the verification succeeds: a
save exception leaves the host data (and thus the flag) untouched, a
`False` verification answer likewise, and any run that does write data
writes exactly `boot_statement_set=True` with the save having succeeded
and the switch verification having answered `True` (the router variant
never reaches its flag-setting line, its verifier raising first, so it
trivially never marks the flag on a failure path). -/
theorem C5_boot_statement_set_guarded (h : HostData) (force : Bool)
    (env : BootEnv) (pm : Bool) :
    (env.saveRaise.isSome = true →
      ∀ h', (setSwitchBootStatement h force env).2 = .ok h' → h' = h) ∧
    ((verifySwitchBootStatement h false env.showRaise env.showOut).2 =
        .ok (some false) →
      ∀ h', (setSwitchBootStatement h force env).2 = .ok h' → h' = h) ∧
    (∀ h', (setSwitchBootStatement h force env).2 = .ok h' → h' ≠ h →
      h' = dataSet h "boot_statement_set" (.vBool true)
      ∧ env.saveRaise = none
      ∧ (verifySwitchBootStatement h false env.showRaise env.showOut).2 =
          .ok (some true)) ∧
    (∀ h', (setRouterBootStatement h env pm).2 = .ok h' → h' = h) := by
  refine ⟨?_, ?_, ?_, ?_⟩
  · intro hsome h' hok
    rcases setSwitch_ok_cases h force env h' hok with he | ⟨-, hnone, -⟩
    · exact he
    · rw [hnone] at hsome
      cases hsome
  · intro hfalse h' hok
    rcases setSwitch_ok_cases h force env h' hok with he | ⟨-, -, htrue⟩
    · exact he
    · rw [htrue] at hfalse
      injection hfalse with h1
      cases h1
  · intro h' hok hne
    rcases setSwitch_ok_cases h force env h' hok with he | hset
    · exact absurd he hne
    · exact hset
  · exact fun h' hok => setRouter_ok_eq h env pm h' hok

/-- A host with valid image, stack and platform fields for exercising
the boot-statement setter. -/
def bootSampleHost : HostData :=
  [ ("primary_image", .vStr "img1.bin")
  , ("current_image", .vStr "img0.bin")
  , ("stack_info", .vDict [("is_stack", .vBool false)])
  , ("platform", .vDict [("name", .vStr "ios")]) ]

/-- Device outcomes where every call succeeds and the boot configuration
read back shows the freshly set statement. -/
def bootSampleEnv : BootEnv :=
  ⟨none, none, none, "boot system flash:img1.bin;flash:img0.bin"⟩

/-- C5 witness: on the sample host the switch setter writes exactly
`boot_statement_set=True`, with the save succeeding and the verification
answering `True`. -/
theorem C5_boot_statement_set_guarded_witness :
    dataSet bootSampleHost "boot_statement_set" (.vBool true) =
        dataSet bootSampleHost "boot_statement_set" (.vBool true)
    ∧ bootSampleEnv.saveRaise = none
    ∧ (verifySwitchBootStatement bootSampleHost false bootSampleEnv.showRaise
        bootSampleEnv.showOut).2 = .ok (some true) :=
  (C5_boot_statement_set_guarded bootSampleHost true bootSampleEnv false).2.2.1
    (dataSet bootSampleHost "boot_statement_set" (.vBool true))
    (by rfl)
    (by
      intro hcontra
      have := congrArg List.length hcontra
      simp [dataSet, bootSampleHost] at this)

/-! ## `tasks/workflows.py`: `transfer_and_verify_image`

The orchestrator's own control flow (guard order, short-circuiting,
try/finally) is embedded directly; each delegated subtask invocation is
recorded as an `Action` and its device-side effect is supplied by an
environment runner `run : Action → HostData → HostData × Option PyError`
(the updated host data plus an optional escaping exception).  DNS
resolution and the hostname read have their own environment outcomes. -/

inductive Action where
  | verifyMd5
  | dnsResolve
  | getHostname
  | getStackInfo
  | getCurrentImage
  | isPrimaryImageInFlash
  | getIosVersion
  | getImagesToDelete
  | deleteUnusedImages
  | enableScpServer
  | supportsSshBulkMode
  | enableSshBulkMode
  | transferImage
  | copyImageToStack
  | disableScpServer
  | disableSshBulkMode
  | closeConnections
  deriving DecidableEq, Repr

/-- Whether an action is a read-only device interaction: transfers,
copies, deletions, and config pushes (scp/bulk-mode toggles) change
device state; checks, lookups and the session teardown do not. -/
def Action.isReadOnly : Action → Bool
  | .deleteUnusedImages => false
  | .enableScpServer => false
  | .enableSshBulkMode => false
  | .transferImage => false
  | .copyImageToStack => false
  | .disableScpServer => false
  | .disableSshBulkMode => false
  | _ => true

/-- The environment runner type for delegated subtasks. -/
abbrev WfRun := Action → HostData → HostData × Option PyError

/-- Run a fixed sequence of subtasks, stopping at the first escaping
exception. -/
def runSeq (run : WfRun) : List Action → HostData → List Action × HostData × Option PyError
  | [], h => ([], h, none)
  | a :: rest, h =>
    let (h2, r) := run a h
    match r with
    | some e => ([a], h2, some e)
    | none =>
      let (tr, h3, r2) := runSeq run rest h2
      (a :: tr, h3, r2)

/-- Python `value is None` on a `host.data.get` result: missing key or a
stored `None`. -/
def pyIsNone : Option Value → Bool
  | none => true
  | some .vNone => true
  | some _ => false

/-- `has_completed_transfer(task)`: data-only fast path, else one
`verify_md5` subtask run and a re-read of the flag.  (The
`task.run(...) is None` early return in the source is dead code — a
nonempty `MultiResult` is never `None`.) -/
def hasCompletedTransfer (run : WfRun) (h : HostData) :
    List Action × HostData × Except PyError Bool :=
  if optTruthy (dataLookup h "primary_image_in_flash") then
    if optTruthy (dataLookup h "primary_image_md5_verified") then ([], h, .ok true)
    else
      let (h2, r) := run .verifyMd5 h
      match r with
      | some e => ([.verifyMd5], h2, .error e)
      | none =>
        if optTruthy (dataLookup h2 "primary_image_md5_verified") then
          ([.verifyMd5], h2, .ok true)
        else ([.verifyMd5], h2, .ok false)
  else ([], h, .ok false)

/-- `_resolve_dns(task)`: resolution success stores and returns the ip;
a falsy resolution stores `None`; `socket.gaierror` is caught and
nothing is stored. -/
def resolveDns (dnsIp : Option String) (h : HostData) : HostData × Option String :=
  match dnsIp with
  | some ip => if ip ≠ "" then (dataSet h "dns_ip" (.vStr ip), some ip)
               else (dataSet h "dns_ip" .vNone, none)
  | none => (h, none)

/-- Remove every occurrence of a pattern (Python `str.replace(pat, "")`,
left to right, non-overlapping); the fuel starts at the text length. -/
def removeSub (pat : List Char) : Nat → List Char → List Char
  | 0, cs => cs
  | _ + 1, [] => []
  | fuel + 1, c :: rest =>
    match dropLit pat (c :: rest) with
    | some r => removeSub pat fuel r
    | none => c :: removeSub pat fuel rest

/-- `task.host.name.split(":")[0].replace(".telcom.arizona.edu", "")`. -/
def expectedName (name : String) : String :=
  let base := name.data.takeWhile (fun c => c ≠ ':')
  String.mk (removeSub ".telcom.arizona.edu".data base.length base)

/-- The final inventory/DNS ip consistency check and flag write of
`is_correct_hostname`. -/
def ipMismatch (ip : Option String) (hostAttr : String) : Bool :=
  match ip with
  | some s => s ≠ hostAttr
  | none => true

/-- The final inventory/DNS ip consistency check and flag write of
`is_correct_hostname`. -/
def finishHostname (tr : List Action) (h : HostData) (ip : Option String)
    (name hostAttr : String) : List Action × HostData × Except PyError Bool :=
  if decide (hostAttr ≠ name) && ipMismatch ip hostAttr then
    (tr, h, .ok false)
  else
    (tr, dataSet h "hostname_verified" (.vBool true), .ok true)

/-- `is_correct_hostname(task)`. -/
def isCorrectHostname (dnsIp : Option String) (hostnameRes : Option String)
    (hostnameRaise : Option PyError) (name hostAttr : String) (h : HostData) :
    List Action × HostData × Except PyError Bool :=
  if optTruthy (dataLookup h "hostname_verified") then ([], h, .ok true)
  else
    let h1 := dataSet h "hostname_verified" (.vBool false)
    if !pyIsNone (dataLookup h1 "dns_ip") then
      finishHostname [] h1 (some (pyStr ((dataLookup h1 "dns_ip").getD .vNone)))
        name hostAttr
    else
      let (h2, ip2) := resolveDns dnsIp h1
      match ip2 with
      | some ip => finishHostname [.dnsResolve] h2 (some ip) name hostAttr
      | none =>
        match hostnameRaise with
        | some e => ([.dnsResolve, .getHostname], h2, .error e)
        | none =>
          match hostnameRes with
          | none => ([.dnsResolve, .getHostname], h2, .ok false)
          | some hn =>
            if hn ≠ expectedName name then
              ([.dnsResolve, .getHostname], h2, .ok false)
            else
              finishHostname [.dnsResolve, .getHostname] h2 none name hostAttr

/-- The workflow body after the auth/at-target/completed/hostname guards
passed: stack and image discovery, the mid-run at-target and completion
re-checks, then cleanup, transfer and final verification. -/
def transferStage2 (run : WfRun) (h : HostData) :
    List Action × HostData × Except PyError Unit :=
  match runSeq run [.getStackInfo, .getCurrentImage] h with
  | (tr, h2, some e) => (tr, h2, .error e)
  | (tr, h2, none) =>
    if optTruthy (dataLookup h2 "is_at_target") then (tr, h2, .ok ())
    else
      match runSeq run [.isPrimaryImageInFlash] h2 with
      | (trB, h3, some e) => (tr ++ trB, h3, .error e)
      | (trB, h3, none) =>
        match hasCompletedTransfer run h3 with
        | (trC, h4, .error e) => (tr ++ trB ++ trC, h4, .error e)
        | (trC, h4, .ok true) => (tr ++ trB ++ trC, h4, .ok ())
        | (trC, h4, .ok false) =>
          match runSeq run
              [.getIosVersion, .getImagesToDelete, .deleteUnusedImages,
               .enableScpServer, .supportsSshBulkMode, .enableSshBulkMode,
               .transferImage, .copyImageToStack, .disableScpServer,
               .disableSshBulkMode, .verifyMd5] h4 with
          | (trD, h5, some e) => (tr ++ trB ++ trC ++ trD, h5, .error e)
          | (trD, h5, none) => (tr ++ trB ++ trC ++ trD, h5, .ok ())

/-- `transfer_and_verify_image(task, skip_dns_check)`.  The `finally`
block closes the device session on every exit path. -/
def transferAndVerifyImage (run : WfRun) (dnsIp : Option String)
    (hostnameRes : Option String) (hostnameRaise : Option PyError)
    (name hostAttr : String) (skipDns : Bool) (h : HostData) :
    List Action × HostData × Except PyError Unit :=
  let body : List Action × HostData × Except PyError Unit :=
    if !optTruthy (dataLookup h "auth_status") then ([], h, .ok ())
    else if optTruthy (dataLookup h "is_at_target") then ([], h, .ok ())
    else
      match hasCompletedTransfer run h with
      | (tr1, h1, .error e) => (tr1, h1, .error e)
      | (tr1, h1, .ok true) => (tr1, h1, .ok ())
      | (tr1, h1, .ok false) =>
        if skipDns then
          let (tr2, h2, r2) := transferStage2 run h1
          (tr1 ++ tr2, h2, r2)
        else
          match isCorrectHostname dnsIp hostnameRes hostnameRaise name hostAttr h1 with
          | (tr2, h2, .error e) => (tr1 ++ tr2, h2, .error e)
          | (tr2, h2, .ok false) => (tr1 ++ tr2, h2, .ok ())
          | (tr2, h2, .ok true) =>
            let (tr3, h3, r3) := transferStage2 run h2
            (tr1 ++ tr2 ++ tr3, h3, r3)
  (body.1 ++ [.closeConnections], body.2.1, body.2.2)

/-- C8: when a host enters `transfer_and_verify_image` with
`is_at_target=true`, the run performs no transfer and no
configuration-changing device call: the only recorded action is the
guaranteed session close, every recorded action is read-only, and the
host data is returned unchanged. -/
theorem C8_transfer_idempotent_at_target (run : WfRun) (dnsIp : Option String)
    (hostnameRes : Option String) (hostnameRaise : Option PyError)
    (name hostAttr : String) (skipDns : Bool) (h : HostData)
    (htarget : dataLookup h "is_at_target" = some (.vBool true)) :
    (transferAndVerifyImage run dnsIp hostnameRes hostnameRaise name hostAttr
        skipDns h).1 = [.closeConnections] ∧
    ((transferAndVerifyImage run dnsIp hostnameRes hostnameRaise name hostAttr
        skipDns h).1.all (fun a => a.isReadOnly)) = true ∧
    (transferAndVerifyImage run dnsIp hostnameRes hostnameRaise name hostAttr
        skipDns h).2.1 = h := by
  unfold transferAndVerifyImage
  by_cases hauth : optTruthy (dataLookup h "auth_status") = true
  · simp [hauth, htarget, optTruthy, pyTruthy, Action.isReadOnly]
  · simp [Bool.not_eq_true] at hauth
    simp [hauth, Action.isReadOnly]

/-- C8 witness: an authenticated host already at target performs only
the session close. -/
theorem C8_transfer_idempotent_at_target_witness :
    (transferAndVerifyImage (fun _ hh => (hh, none)) none none none
        "sw1" "10.0.0.1" false
        [("auth_status", .vStr "ok"), ("is_at_target", .vBool true)]).1 =
      [.closeConnections] ∧
    ((transferAndVerifyImage (fun _ hh => (hh, none)) none none none
        "sw1" "10.0.0.1" false
        [("auth_status", .vStr "ok"), ("is_at_target", .vBool true)]).1.all
      (fun a => a.isReadOnly)) = true ∧
    (transferAndVerifyImage (fun _ hh => (hh, none)) none none none
        "sw1" "10.0.0.1" false
        [("auth_status", .vStr "ok"), ("is_at_target", .vBool true)]).2.1 =
      [("auth_status", .vStr "ok"), ("is_at_target", .vBool true)] :=
  C8_transfer_idempotent_at_target (fun _ hh => (hh, none)) none none none
    "sw1" "10.0.0.1" false
    [("auth_status", .vStr "ok"), ("is_at_target", .vBool true)] rfl

end NornirCli
